import Mathlib

/- Verification of the Airglow status dashboard (src/web/app.py): the
   avahi-browse discovery parser and device merge engine, the AirPlay
   identity matcher, the AirPlay-name configuration updater, and the
   /api/status aggregation pipeline.

   Python strings are modelled as lists of characters (`Str`), Python
   exceptions as an explicit `Except PyExc` error monad, and the external
   world (subprocess runs, HTTP calls, files) as explicit environment
   records supplied to each embedded function. -/

/-- Python strings are modelled as lists of characters. -/
abbrev Str := List Char

/-- Shorthand to turn a Lean string literal into the `Str` model type. -/
def lit (s : String) : Str := s.toList

/-- Python whitespace characters recognised by str.strip (ASCII range). -/
def isWs (c : Char) : Bool :=
  c = ' ' || c = '\t' || c = '\n' || c = '\r' || c = '\x0b' || c = '\x0c'

/-- str.strip(): drop leading and trailing whitespace. -/
def pyStrip (s : Str) : Str :=
  ((s.dropWhile isWs).reverse.dropWhile isWs).reverse

/-- str.lower() (ASCII case folding, which covers all inputs the code sees). -/
def lowerStr (s : Str) : Str := s.map Char.toLower

/-- Does `pat` occur at the start of `s`? (str.startswith) -/
def begins : Str → Str → Bool
  | [], _ => true
  | _ :: _, [] => false
  | p :: ps, c :: cs => p = c && begins ps cs

/-- Python `pat in s` substring containment test. -/
def hasSub : Str → Str → Bool
  | [], pat => begins pat []
  | s@(_ :: t), pat => begins pat s || hasSub t pat

/-- str.split(c): split on every occurrence of a single character. -/
def splitOnChar (c : Char) : Str → List Str
  | [] => [[]]
  | x :: xs =>
    if x = c then [] :: splitOnChar c xs
    else
      match splitOnChar c xs with
      | [] => [[x]]
      | h :: t => (x :: h) :: t

/-- c.join(xs): join with a single-character separator. -/
def joinChar (c : Char) : List Str → Str
  | [] => []
  | [x] => x
  | x :: y :: t => x ++ c :: joinChar c (y :: t)

/-- First occurrence of substring `pat` in `s`, as (before, after) parts. -/
def splitOnceSub : Str → Str → Option (Str × Str)
  | s, pat =>
    if begins pat s then some ([], s.drop pat.length)
    else
      match s with
      | [] => none
      | c :: t => (splitOnceSub t pat).map (fun p => (c :: p.1, p.2))

/-- str.split(sep) for a substring separator, fuel-driven (fuel ≥ length suffices). -/
def splitOnSubF : Nat → Str → Str → List Str
  | 0, s, _ => [s]
  | n + 1, s, pat =>
    match splitOnceSub s pat with
    | none => [s]
    | some (pre, post) => pre :: splitOnSubF n post pat

/-- str.split(sep) for a (nonempty) substring separator. -/
def splitOnSub (s pat : Str) : List Str := splitOnSubF (s.length + 1) s pat

/-- str.replace(pat, repl): replace all non-overlapping occurrences, left to right. -/
def replaceSubF : Nat → Str → Str → Str → Str
  | 0, s, _, _ => s
  | n + 1, s, pat, repl =>
    match s with
    | [] => []
    | c :: t =>
      if begins pat s && !pat.isEmpty then
        repl ++ replaceSubF n (s.drop pat.length) pat repl
      else c :: replaceSubF n t pat repl

/-- str.replace(pat, repl) with adequate fuel. -/
def replaceSub (s pat repl : Str) : Str := replaceSubF (s.length + 1) s pat repl

/-- re.search('"KEY=([^"]+)"', txt): leftmost quoted key=value token; returns the
    nonempty run of non-quote characters after `"KEY` terminated by a quote.
    `key` is the literal including the equals sign, e.g. `fv=`. -/
def findQuotedVal (key : Str) : Str → Option Str
  | [] => none
  | s@(_ :: t) =>
    if begins ('"' :: key) s then
      let rest := s.drop (key.length + 1)
      let grp := rest.takeWhile (fun c => c ≠ '"')
      if !grp.isEmpty && !(rest.drop grp.length).isEmpty then some grp
      else findQuotedVal key t
    else findQuotedVal key t

/-- Python exception kinds raised or caught by the code under verification. -/
inductive PyExc where
  | timeoutExpired
  | fileNotFoundError
  | subprocessError
  | jsonDecodeError
  | indexError
  | attributeError
  | typeError
deriving DecidableEq, Repr

/-- Python-style list indexing: `xs[i]` raises IndexError when out of range. -/
def pyIdx (xs : List Str) (i : Nat) : Except PyExc Str :=
  match xs.get? i with
  | some v => Except.ok v
  | none => Except.error PyExc.indexError

/- ---------------------------------------------------------------------
   parse_avahi_browse_output (src/web/app.py lines 1112-1247)
   --------------------------------------------------------------------- -/

/-- One resolved avahi-browse record extracted from a single `=` line, with the
    per-line derived values the Python loop body computes (lines 1136-1195). -/
structure RRec where
  line : Str
  interface : Str
  protocol : Str
  name : Str
  service_type : Str
  domain : Str
  hostname : Str
  address : Str
  port : Str
  txt_record : Str
  device_name : Str
  firmware_version : Option Str
  feature_flags : Option Str
  device_key : Str
  service_label : Str
deriving DecidableEq, Repr

/-- A merged device entry as built in `device_map` / emitted in `devices`. -/
structure Device where
  name : Str
  interface : Str
  protocol : Str
  hostname : Str
  address : Str
  port : Str
  firmware_version : Option Str
  feature_flags : Option Str
  service_type : Str
  raw_avahi_data : List Str
  address_display : Str := []
deriving DecidableEq, Repr

/-- The escape replacements applied to a raw name (app.py line 1157/1160):
    \032 to space, \126 to tilde, \040 to space, \041 to an exclamation mark. -/
def applyEscapes (s : Str) : Str :=
  replaceSub (replaceSub (replaceSub (replaceSub s (lit "\\032") (lit " "))
    (lit "\\126") (lit "~")) (lit "\\040") (lit " ")) (lit "\\041") (lit "!")

/-- Decoding of the escaped device name (app.py lines 1150-1167): split on the
    \064 separator keeping the last part, apply the fixed escape replacements,
    strip, and fall back to the hostname's first label with hyphens as spaces. -/
def decodeName (name hostname : Str) : Str :=
  let dn :=
    if hasSub name (lit "\\064") then
      let name_parts := splitOnSub name (lit "\\064")
      if name_parts.length > 1 then applyEscapes (name_parts.getLastD [])
      else lit "Unknown Device"
    else if !name.isEmpty then applyEscapes name
    else lit "Unknown Device"
  let dn := pyStrip dn
  if dn.isEmpty || dn = lit "Unknown Device" then
    if !hostname.isEmpty then
      replaceSub ((splitOnChar '.' hostname).headD []) (lit "-") (lit " ")
    else dn
  else dn

/-- Grouping key (app.py lines 1184-1188): hostname.lower()|service_type.lower(),
    falling back to the decoded device name when the hostname is empty. -/
def keyFor (hostname device_name service_type : Str) : Str :=
  if !hostname.isEmpty then lowerStr hostname ++ '|' :: lowerStr service_type
  else lowerStr device_name ++ '|' :: lowerStr service_type

/-- Human-readable service-type suffix (app.py lines 1191-1195). -/
def labelFor (service_type : Str) : Str :=
  if hasSub (lowerStr service_type) (lit "_raop._tcp") then lit " (AirPlay 2 Audio)"
  else if hasSub (lowerStr service_type) (lit "_airplay._tcp") then lit " (AirPlay Video)"
  else []

/-- The per-line field extraction of the parser's loop body (app.py lines
    1122-1195), with Python's indexing modelled as a fallible operation so the
    absence of IndexError is a theorem, not an assumption. Lines that are not
    resolved (`=`) records with at least 10 fields yield `none`. -/
def parseResolvedLineE (line0 : Str) : Except PyExc (Option RRec) := do
  let line := pyStrip line0
  if line.isEmpty then pure none
  else if hasSub line (lit ";") then
    let parts := splitOnChar ';' line
    let event_type := parts.headD []
    if event_type = lit "=" && decide (parts.length ≥ 10) then
      let interface ← pyIdx parts 1
      let protocol ← pyIdx parts 2
      let name ← pyIdx parts 3
      let service_type ← pyIdx parts 4
      let domain ← pyIdx parts 5
      let hostname := if parts.length > 6 then parts.getD 6 [] else []
      let address := if parts.length > 7 then parts.getD 7 [] else []
      let port := if parts.length > 8 then parts.getD 8 [] else []
      let txt_record := if parts.length > 9 then joinChar ';' (parts.drop 9) else []
      let device_name := decodeName name hostname
      let firmware_version :=
        if !txt_record.isEmpty then findQuotedVal (lit "fv=") txt_record else none
      let feature_flags :=
        if !txt_record.isEmpty then findQuotedVal (lit "ft=") txt_record else none
      let device_key := keyFor hostname device_name service_type
      let service_label := labelFor service_type
      pure (some { line, interface, protocol, name, service_type, domain, hostname,
                   address, port, txt_record, device_name, firmware_version,
                   feature_flags, device_key, service_label })
    else pure none
  else pure none

/-- Total form of the per-line extraction (the Python code never actually
    raises on a line; `parseResolvedLineE_ok` below proves the two agree). -/
def parseResolvedLine (line0 : Str) : Option RRec :=
  match parseResolvedLineE line0 with
  | Except.ok o => o
  | Except.error _ => none

/-- The Python dict `device_map` as an insertion-ordered association list. -/
abbrev DMap := List (Str × Device)

/-- Keys of the device map in insertion order. -/
def alKeys (m : DMap) : List Str := m.map Prod.fst

/-- `key in device_map`. -/
def alContains (m : DMap) (k : Str) : Bool := m.any (fun p => p.1 = k)

/-- `device_map[key]` lookup (keys are unique; first match). -/
def alFind : DMap → Str → Option Device
  | [], _ => none
  | (k', v) :: t, k => if k' = k then some v else alFind t k

/-- In-place update of the entry with the given key. -/
def alUpdate (m : DMap) (k : Str) (f : Device → Device) : DMap :=
  m.map (fun p => if p.1 = k then (p.1, f p.2) else p)

/-- Initial device entry for a fresh key (app.py lines 1198-1210). -/
def initDevice (r : RRec) : Device :=
  { name := r.device_name ++ r.service_label
    interface := r.interface
    protocol := r.protocol
    hostname := r.hostname
    address := r.address
    port := r.port
    firmware_version := r.firmware_version
    feature_flags := r.feature_flags
    service_type := r.service_type
    raw_avahi_data := [] }

/-- address.startswith('192.168.'). -/
def begins192 (a : Str) : Bool := begins (lit "192.168.") a

/-- Address/interface/protocol preference on merge (app.py lines 1215-1232):
    a 192.168. address beats a non-192.168. one, IPv4 beats IPv6, any address
    beats none; otherwise the existing triple is kept. -/
def updAddr (d : Device) (r : RRec) : Str × Str × Str :=
  if !r.address.isEmpty then
    if begins192 r.address && !begins192 d.address then (r.address, r.interface, r.protocol)
    else if r.protocol = lit "IPv4" && d.protocol = lit "IPv6" then
      (r.address, r.interface, r.protocol)
    else if d.address.isEmpty then (r.address, r.interface, r.protocol)
    else (d.address, d.interface, d.protocol)
  else (d.address, d.interface, d.protocol)

/-- Python falsiness of an optional string (None or empty). -/
def optFalsy : Option Str → Bool
  | none => true
  | some s => s.isEmpty

/-- Fill firmware/feature metadata only when currently absent (lines 1234-1238). -/
def updMeta (cur cand : Option Str) : Option Str :=
  if optFalsy cur && !optFalsy cand then cand else cur

/-- Merge one record into an existing entry (app.py lines 1212-1238): append the
    raw line, apply the address preference, fill missing metadata. The hostname,
    name, port and service_type fields are never touched after initialisation. -/
def applyRecord (d : Device) (r : RRec) : Device :=
  let t := updAddr d r
  { d with
    raw_avahi_data := d.raw_avahi_data ++ [r.line]
    address := t.1
    interface := t.2.1
    protocol := t.2.2
    firmware_version := updMeta d.firmware_version r.firmware_version
    feature_flags := updMeta d.feature_flags r.feature_flags }

/-- Process one input line against the device map (one iteration of the loop at
    app.py line 1122). -/
def step (m : DMap) (line : Str) : DMap :=
  match parseResolvedLine line with
  | none => m
  | some r =>
    let m1 := if alContains m r.device_key then m else m ++ [(r.device_key, initDevice r)]
    alUpdate m1 r.device_key (fun d => applyRecord d r)

/-- The device map after all lines are processed. -/
def deviceMapOf (lines : List Str) : DMap := lines.foldl step []

/-- Emission filter (app.py lines 1241-1245): keep entries with an address or a
    hostname, setting address_display. -/
def emitDevice (d : Device) : Option Device :=
  if !d.address.isEmpty || !d.hostname.isEmpty then
    some { d with address_display := d.address }
  else none

/-- Emitted devices of a map, in insertion order. -/
def emitAll (m : DMap) : List Device := m.filterMap (fun p => emitDevice p.2)

/-- Parse a list of already-split lines into the final device list. -/
def parseLines (lines : List Str) : List Device := emitAll (deviceMapOf lines)

/-- parse_avahi_browse_output (app.py lines 1112-1247). -/
def parse_avahi_browse_output (raw : Str) : List Device :=
  if raw.isEmpty || (pyStrip raw).isEmpty then []
  else parseLines (splitOnChar '\n' raw)

example :
    (parse_avahi_browse_output (lit "=;eth0;IPv4;D6BF5E\\064Living\\032Room;_raop._tcp;local;livingroom.local;192.168.2.10;7000;\"fv=1.2\"")).map
      (fun d => d.name) = [lit "Living Room (AirPlay 2 Audio)"] := by decide

/-- The fold of the parser's loop with Python's fallible indexing made explicit. -/
def stepE (m : DMap) (line : Str) : Except PyExc DMap := do
  let o ← parseResolvedLineE line
  match o with
  | none => pure m
  | some r =>
    let m1 := if alContains m r.device_key then m else m ++ [(r.device_key, initDevice r)]
    pure (alUpdate m1 r.device_key (fun d => applyRecord d r))

/-- parse_avahi_browse_output with Python's fallible indexing made explicit. -/
def parse_avahi_browse_outputE (raw : Str) : Except PyExc (List Device) :=
  if raw.isEmpty || (pyStrip raw).isEmpty then Except.ok []
  else do
    let m ← (splitOnChar '\n' raw).foldlM stepE []
    pure (emitAll m)

theorem pyIdx_ok (xs : List Str) (i : Nat) (h : i < xs.length) :
    pyIdx xs i = Except.ok (xs.getD i []) := by
  unfold pyIdx
  cases h2 : xs.get? i with
  | none => exact absurd (List.get?_eq_none.mp h2) (by omega)
  | some v =>
    have : xs.getD i [] = v := by
      rw [List.getD_eq_getElem?_getD, ← List.get?_eq_getElem?, h2]; rfl
    rw [this]

theorem parseResolvedLineE_ok (l : Str) :
    parseResolvedLineE l = Except.ok (parseResolvedLine l) := by
  suffices h : ∃ o, parseResolvedLineE l = Except.ok o by
    obtain ⟨o, ho⟩ := h
    rw [parseResolvedLine, ho]
  simp only [parseResolvedLineE]
  split
  · exact ⟨none, rfl⟩
  split
  · split
    · rename_i hcond
      have hlen : (splitOnChar ';' (pyStrip l)).length ≥ 10 :=
        of_decide_eq_true ((Bool.and_eq_true _ _).mp hcond).2
      rw [pyIdx_ok _ 1 (by omega), pyIdx_ok _ 2 (by omega), pyIdx_ok _ 3 (by omega),
        pyIdx_ok _ 4 (by omega), pyIdx_ok _ 5 (by omega)]
      exact ⟨_, rfl⟩
    · exact ⟨none, rfl⟩
  · exact ⟨none, rfl⟩

theorem stepE_ok (m : DMap) (l : Str) : stepE m l = Except.ok (step m l) := by
  rw [stepE, step, parseResolvedLineE_ok l]
  cases parseResolvedLine l <;> rfl

theorem foldlM_stepE_ok (lines : List Str) :
    ∀ m : DMap, lines.foldlM stepE m = Except.ok (lines.foldl step m) := by
  induction lines with
  | nil => intro m; rfl
  | cons x xs ih =>
    intro m
    rw [List.foldlM_cons, stepE_ok, List.foldl_cons]
    exact ih (step m x)

theorem parseResolvedLine_short (line : Str)
    (h : (splitOnChar ';' (pyStrip line)).length < 10) : parseResolvedLine line = none := by
  suffices h2 : parseResolvedLineE line = Except.ok none by rw [parseResolvedLine, h2]
  simp only [parseResolvedLineE]
  split
  · rfl
  split
  · split
    · rename_i hcond
      exact absurd (of_decide_eq_true ((Bool.and_eq_true _ _).mp hcond).2) (by omega)
    · rfl
  · rfl

/-- The record produced for a resolved line with at least 10 fields, written out
    field by field (parts are the semicolon-split fields of the stripped line). -/
def rrecOf (line : Str) (parts : List Str) : RRec :=
  let hostname := if parts.length > 6 then parts.getD 6 [] else []
  let service_type := parts.getD 4 []
  let txt_record := if parts.length > 9 then joinChar ';' (parts.drop 9) else []
  let device_name := decodeName (parts.getD 3 []) hostname
  { line := line
    interface := parts.getD 1 []
    protocol := parts.getD 2 []
    name := parts.getD 3 []
    service_type := service_type
    domain := parts.getD 5 []
    hostname := hostname
    address := if parts.length > 7 then parts.getD 7 [] else []
    port := if parts.length > 8 then parts.getD 8 [] else []
    txt_record := txt_record
    device_name := device_name
    firmware_version := if !txt_record.isEmpty then findQuotedVal (lit "fv=") txt_record else none
    feature_flags := if !txt_record.isEmpty then findQuotedVal (lit "ft=") txt_record else none
    device_key := keyFor hostname device_name service_type
    service_label := labelFor service_type }

theorem parseResolvedLine_eq (line : Str)
    (hne : (pyStrip line).isEmpty = false)
    (hsemi : hasSub (pyStrip line) (lit ";") = true)
    (hev : (splitOnChar ';' (pyStrip line)).headD [] = lit "=")
    (hlen : (splitOnChar ';' (pyStrip line)).length ≥ 10) :
    parseResolvedLine line = some (rrecOf (pyStrip line) (splitOnChar ';' (pyStrip line))) := by
  rw [parseResolvedLine]
  simp only [parseResolvedLineE]
  rw [if_neg (by rw [hne]; simp), if_pos hsemi,
    if_pos ((Bool.and_eq_true _ _).mpr ⟨decide_eq_true hev, decide_eq_true hlen⟩),
    pyIdx_ok _ 1 (by omega), pyIdx_ok _ 2 (by omega), pyIdx_ok _ 3 (by omega),
    pyIdx_ok _ 4 (by omega), pyIdx_ok _ 5 (by omega)]
  rfl

theorem splitOnChar_ne_nil (c : Char) (s : Str) : splitOnChar c s ≠ [] := by
  induction s with
  | nil => simp [splitOnChar]
  | cons x xs ih =>
    simp only [splitOnChar]
    split
    · simp
    · cases h3 : splitOnChar c xs with
      | nil => exact absurd h3 ih
      | cons h t => simp

theorem joinChar_cons (c : Char) (x : Str) (xs : List Str) (h : xs ≠ []) :
    joinChar c (x :: xs) = x ++ c :: joinChar c xs := by
  cases xs with
  | nil => exact absurd rfl h
  | cons y t => rfl

theorem joinChar_splitOnChar (c : Char) (s : Str) : joinChar c (splitOnChar c s) = s := by
  induction s with
  | nil => rfl
  | cons x xs ih =>
    simp only [splitOnChar]
    by_cases hx : x = c
    · rw [if_pos hx, joinChar_cons c [] _ (splitOnChar_ne_nil c xs), ih, hx]
      rfl
    · rw [if_neg hx]
      cases h3 : splitOnChar c xs with
      | nil => exact absurd h3 (splitOnChar_ne_nil c xs)
      | cons h t =>
        rw [h3] at ih
        cases t with
        | nil =>
          simp only [joinChar] at ih ⊢
          rw [ih]
        | cons y t' =>
          rw [joinChar_cons c (x :: h) (y :: t') (by simp),
            joinChar_cons c h (y :: t') (by simp) ] at *
          simp only [List.cons_append, ih]

theorem splitOnChar_append (c : Char) (f rest : Str) (h : c ∉ f) :
    splitOnChar c (f ++ c :: rest) = f :: splitOnChar c rest := by
  induction f with
  | nil => simp [splitOnChar]
  | cons x f' ih =>
    have hx : ¬ x = c := fun e => h (by simp [e])
    have hf' : c ∉ f' := fun e => h (by simp [e])
    simp only [List.cons_append, splitOnChar, List.append_eq]
    rw [if_neg hx, ih hf']

theorem splitOnChar_join_fields (c : Char) (fields : List Str) (txt : Str)
    (h : ∀ f ∈ fields, c ∉ f) :
    splitOnChar c (joinChar c (fields ++ [txt])) = fields ++ splitOnChar c txt := by
  induction fields with
  | nil => rfl
  | cons f fs ih =>
    have hne : fs ++ [txt] ≠ [] := by simp
    rw [List.cons_append, joinChar_cons c f (fs ++ [txt]) hne,
      splitOnChar_append c f _ (h f (by simp)),
      ih (fun g hg => h g (by simp [hg]))]
    simp

theorem hasSub_of_mem (s : Str) (c : Char) (h : c ∈ s) : hasSub s [c] = true := by
  induction s with
  | nil => simp at h
  | cons x t ih =>
    simp only [hasSub, Bool.or_eq_true]
    rcases List.mem_cons.mp h with h1 | h2
    · left; simp [begins, h1.symm]
    · right; exact ih h2

/-- The spec's worked example line for the discovery parser. -/
def exLine1 : Str :=
  lit "=;eth0;IPv4;D6BF5E\\064Living\\032Room;_raop._tcp;local;livingroom.local;192.168.2.10;7000;\"fv=1.2\""

/-- C2 counterexample: the example browse line does not yield a device whose
    emitted display name is "Living Room" — the parser appends the
    service-type label to the decoded name (app.py line 1200). -/
theorem c2_display_name_counterexample :
    (parse_avahi_browse_output exLine1).map (fun d => d.name) ≠ [lit "Living Room"] := by
  decide

/-- C2 (amended): the example browse line parses to exactly one device; its
    decoded device name is "Living Room", the emitted display name is
    "Living Room (AirPlay 2 Audio)" (decoded name plus service-type label), and
    hostname, address and firmware version are as the claim states. -/
theorem c2_example_line_parses :
    (parseResolvedLine exLine1).map (fun r => r.device_name) = some (lit "Living Room") ∧
    (parse_avahi_browse_output exLine1).map (fun d => d.name)
      = [lit "Living Room (AirPlay 2 Audio)"] ∧
    (parse_avahi_browse_output exLine1).map (fun d => d.hostname) = [lit "livingroom.local"] ∧
    (parse_avahi_browse_output exLine1).map (fun d => d.address) = [lit "192.168.2.10"] ∧
    (parse_avahi_browse_output exLine1).map (fun d => d.firmware_version)
      = [some (lit "1.2")] := by
  exact ⟨by decide, by decide, by decide, by decide, by decide⟩

/-- A resolved line whose raw name contains the \040 escape. -/
def exLine3 : Str := lit "=;eth0;IPv4;AB\\064Hi\\040there;_raop._tcp;local;h;192.168.2.9;7000;t"

/-- A resolved line exercising every escape the code handles plus one (\065) it
    does not; service type `s` so no display label is appended. -/
def exLine3b : Str :=
  lit "=;eth0;IPv4;X\\064A\\032B\\126C\\040D\\041E\\065F;s;local;h;192.168.2.9;7000;t"

/-- C3 counterexample: the escape \040 (decimal 40, the character '(') is NOT
    decoded to '(' — the code replaces it with a space (app.py line 1157), so
    the decoded name is "Hi there" rather than "Hi(there". -/
theorem c3_escape_counterexample :
    (parseResolvedLine exLine3).map (fun r => r.device_name) = some (lit "Hi there") ∧
    lit "Hi there" ≠ lit "Hi(there" := by
  exact ⟨by decide, by decide⟩

/-- C3 (amended): the parser decodes only a fixed set of escapes, not general
    \NNN sequences: \032 becomes a space and \126 a tilde as the claim states;
    \064 acts as the name separator (the escape and the identifier before it
    are discarded, no '@' is produced); \040 becomes a space (not '(') and \041
    an exclamation mark (not ')'); any other escape such as \065 is left
    verbatim.  Demonstrated end to end on a name containing all of them. -/
theorem c3_escape_decoding :
    (parseResolvedLine exLine3b).map (fun r => r.device_name)
      = some (lit "A B~C D!E\\065F") := by
  decide

/-- C6: the parser never raises on any input (the fallible-indexing embedding
    always returns ok, in particular for resolved lines with at least 10
    fields), and any line with fewer than 10 semicolon-separated fields is
    silently skipped, leaving the devices produced from the other lines
    unchanged. -/
theorem c6_no_throw_and_short_line_skip :
    (∀ raw, parse_avahi_browse_outputE raw = Except.ok (parse_avahi_browse_output raw)) ∧
    (∀ (pre post : List Str) (line : Str),
      (splitOnChar ';' (pyStrip line)).length < 10 →
      parseLines (pre ++ line :: post) = parseLines (pre ++ post)) := by
  constructor
  · intro raw
    rw [parse_avahi_browse_outputE, parse_avahi_browse_output]
    split
    · rfl
    · rw [foldlM_stepE_ok]; rfl
  · intro pre post line h
    have hstep : step (pre.foldl step []) line = pre.foldl step [] := by
      rw [step, parseResolvedLine_short line h]
    rw [parseLines, parseLines, deviceMapOf, deviceMapOf, List.foldl_append,
      List.foldl_append, List.foldl_cons, hstep]

/-- C6 witness: a concrete 3-field line is skipped and has no effect. -/
theorem c6_witness :
    (splitOnChar ';' (pyStrip (lit "=;eth0;IPv4"))).length < 10 ∧
    parseLines [exLine1, lit "=;eth0;IPv4"] = parseLines [exLine1] := by
  exact ⟨by decide,
    c6_no_throw_and_short_line_skip.2 [exLine1] [] (lit "=;eth0;IPv4") (by decide)⟩

/-- A resolved line whose TXT record itself contains a semicolon. -/
def exLine9 : Str :=
  lit "=;eth0;IPv4;N;_raop._tcp;local;h;192.168.2.7;7000;\"am=a;b\" \"fv=9.9\""

/-- C9: for any resolved line assembled from nine semicolon-free fields (the
    first being "=") followed by an arbitrary TXT tail, all fields from index 9
    onward are rejoined with ';' so the record's txt_record is exactly the
    original tail, even when it contains semicolons; and on a concrete line
    with a semicolon inside the TXT record the quoted fv= token is still
    extracted. -/
theorem c9_txt_record_rejoined :
    (∀ (fields : List Str) (txt : Str),
      fields.length = 9 →
      fields.headD [] = lit "=" →
      (∀ f ∈ fields, ';' ∉ f) →
      pyStrip (joinChar ';' (fields ++ [txt])) = joinChar ';' (fields ++ [txt]) →
      ∃ r, parseResolvedLine (joinChar ';' (fields ++ [txt])) = some r ∧
        r.txt_record = txt) ∧
    (parseResolvedLine exLine9).map (fun r => r.firmware_version)
      = some (some (lit "9.9")) := by
  constructor
  · intro fields txt h9 hhead hnosemi hstrip
    have hsplit : splitOnChar ';' (joinChar ';' (fields ++ [txt]))
        = fields ++ splitOnChar ';' txt :=
      splitOnChar_join_fields ';' fields txt hnosemi
    obtain ⟨f0, fs, rfl⟩ : ∃ f0 fs, fields = f0 :: fs := by
      cases fields with
      | nil => simp at h9
      | cons a b => exact ⟨a, b, rfl⟩
    have hjoin : joinChar ';' ((f0 :: fs) ++ [txt])
        = f0 ++ ';' :: joinChar ';' (fs ++ [txt]) := by
      rw [List.cons_append, joinChar_cons _ _ _ (by simp)]
    have hne : (pyStrip (joinChar ';' ((f0 :: fs) ++ [txt]))).isEmpty = false := by
      rw [hstrip, hjoin]
      cases f0 <;> simp [List.isEmpty]
    have hsemi : hasSub (pyStrip (joinChar ';' ((f0 :: fs) ++ [txt]))) (lit ";") = true := by
      rw [hstrip]
      refine hasSub_of_mem _ ';' ?_
      rw [hjoin]
      simp
    have hev : (splitOnChar ';' (pyStrip (joinChar ';' ((f0 :: fs) ++ [txt])))).headD []
        = lit "=" := by
      rw [hstrip, hsplit]
      simpa using hhead
    have hlen : (splitOnChar ';' (pyStrip (joinChar ';' ((f0 :: fs) ++ [txt])))).length
        ≥ 10 := by
      rw [hstrip, hsplit]
      have hpos : 0 < (splitOnChar ';' txt).length :=
        List.length_pos.mpr (splitOnChar_ne_nil ';' txt)
      simp only [List.length_append, h9]
      omega
    refine ⟨_, parseResolvedLine_eq _ hne hsemi hev hlen, ?_⟩
    simp only [rrecOf, hstrip, hsplit]
    rw [if_pos (by
      have hpos : 0 < (splitOnChar ';' txt).length :=
        List.length_pos.mpr (splitOnChar_ne_nil ';' txt)
      simp only [List.length_append, h9]
      omega)]
    have hdrop : ((f0 :: fs) ++ splitOnChar ';' txt).drop 9 = splitOnChar ';' txt := by
      rw [show (9 : Nat) = (f0 :: fs).length from h9.symm, List.drop_left]
    rw [hdrop, joinChar_splitOnChar]
  · decide

/-- C9 witness: the general rejoin theorem applied to a concrete line whose TXT
    tail contains a semicolon. -/
theorem c9_witness :
    ∃ r, parseResolvedLine (joinChar ';'
        ([lit "=", lit "eth0", lit "IPv4", lit "N", lit "s", lit "local", lit "h",
          lit "192.168.2.7", lit "7000"] ++ [lit "\"am=a;b\" \"fv=9.9\""])) = some r ∧
      r.txt_record = lit "\"am=a;b\" \"fv=9.9\"" := by
  exact c9_txt_record_rejoined.1
    [lit "=", lit "eth0", lit "IPv4", lit "N", lit "s", lit "local", lit "h",
      lit "192.168.2.7", lit "7000"] (lit "\"am=a;b\" \"fv=9.9\"")
    (by decide) (by decide) (by decide) (by decide)

/- ---------------------------------------------------------------------
   Merge-engine lemmas (device_map behaviour, app.py lines 1182-1238)
   --------------------------------------------------------------------- -/

/-- The merge key a line contributes, when it is a resolved record. -/
def keyOf (l : Str) : Option Str := (parseResolvedLine l).map (fun r => r.device_key)

/-- Does a line's resolved record (if any) carry a nonempty hostname? -/
def hostnameOk (l : Str) : Bool :=
  match parseResolvedLine l with
  | some r => !r.hostname.isEmpty
  | none => true

/-- Keys of the entries that pass the emission filter (app.py lines 1241-1245). -/
def emittedKeys (L : List Str) : List Str :=
  ((deviceMapOf L).filter
    (fun p => !p.2.address.isEmpty || !p.2.hostname.isEmpty)).map Prod.fst

instance : Inhabited Device :=
  ⟨{ name := [], interface := [], protocol := [], hostname := [], address := [],
     port := [], firmware_version := none, feature_flags := none, service_type := [],
     raw_avahi_data := [] }⟩

theorem alKeys_alUpdate (m : DMap) (k : Str) (f : Device → Device) :
    alKeys (alUpdate m k f) = alKeys m := by
  rw [alKeys, alUpdate, List.map_map, alKeys]
  apply List.map_congr_left
  intro p _
  by_cases h0 : p.1 = k
  · simp [h0]
  · simp [h0]

theorem alContains_iff (m : DMap) (k : Str) :
    alContains m k = true ↔ k ∈ alKeys m := by
  simp only [alContains, List.any_eq_true, alKeys, List.mem_map]
  constructor
  · rintro ⟨p, hp, he⟩
    exact ⟨p, hp, (of_decide_eq_true he)⟩
  · rintro ⟨p, hp, he⟩
    exact ⟨p, hp, decide_eq_true he⟩

theorem alFind_some_contains (m : DMap) (k : Str) (d : Device)
    (h : alFind m k = some d) : alContains m k = true := by
  induction m with
  | nil => simp [alFind] at h
  | cons q t ih =>
    obtain ⟨k0, v⟩ := q
    rw [alFind] at h
    by_cases hq : k0 = k
    · rw [alContains, List.any_cons]
      have hd : decide ((k0, v).1 = k) = true := decide_eq_true hq
      rw [hd, Bool.true_or]
    · rw [if_neg hq] at h
      have h2 := ih h
      rw [alContains] at h2
      rw [alContains, List.any_cons, h2, Bool.or_true]

theorem alFind_append_of_some (m l : DMap) (k : Str) (d : Device)
    (h : alFind m k = some d) : alFind (m ++ l) k = some d := by
  induction m with
  | nil => simp [alFind] at h
  | cons q t ih =>
    rw [alFind] at h
    by_cases hq : q.1 = k
    · cases q with
      | mk k0 v => simp only [List.cons_append, alFind, if_pos hq] at *; exact h
    · cases q with
      | mk k0 v =>
        rw [if_neg hq] at h
        simp only [List.cons_append, alFind, if_neg hq]
        exact ih h

theorem alFind_alUpdate (m : DMap) (k' : Str) (f : Device → Device) (k : Str) :
    alFind (alUpdate m k' f) k =
      if k = k' then (alFind m k).map f else alFind m k := by
  induction m with
  | nil => by_cases hk : k = k' <;> simp [alUpdate, alFind, hk]
  | cons q t ih =>
    obtain ⟨k0, v⟩ := q
    by_cases h0 : k0 = k'
    · by_cases hk : k0 = k
      · have hkk' : k = k' := hk ▸ h0
        simp only [alUpdate, List.map_cons] at *
        rw [if_pos (show ((k0, v).1 = k') from h0)]
        rw [alFind, alFind, if_pos hk, if_pos hk, if_pos hkk']
        rfl
      · simp only [alUpdate, List.map_cons] at *
        rw [if_pos (show ((k0, v).1 = k') from h0)]
        rw [alFind, alFind, if_neg hk, if_neg hk]
        exact ih
    · by_cases hk : k0 = k
      · have hne : ¬ k = k' := fun e => h0 (hk.trans e)
        simp only [alUpdate, List.map_cons] at *
        rw [if_neg (show ¬ ((k0, v).1 = k') from h0)]
        rw [alFind, alFind, if_pos hk, if_pos hk, if_neg hne]
      · simp only [alUpdate, List.map_cons] at *
        rw [if_neg (show ¬ ((k0, v).1 = k') from h0)]
        rw [alFind, alFind, if_neg hk, if_neg hk]
        exact ih

theorem mem_alKeys_step (m : DMap) (l : Str) (k : Str) :
    k ∈ alKeys (step m l) ↔ k ∈ alKeys m ∨ keyOf l = some k := by
  rw [step, keyOf]
  cases h : parseResolvedLine l with
  | none => simp
  | some r =>
    simp only [Option.map_some]
    rw [alKeys_alUpdate]
    by_cases hc : alContains m r.device_key
    · rw [if_pos hc]
      constructor
      · exact Or.inl
      · rintro (hk | hk)
        · exact hk
        · obtain rfl : r.device_key = k := Option.some_injective _ hk
          exact (alContains_iff m _).mp hc
    · rw [if_neg hc]
      simp only [alKeys, List.map_append, List.map_cons, List.map_nil,
        List.mem_append, List.mem_cons, List.not_mem_nil, or_false]
      constructor
      · rintro (hk | hk)
        · exact Or.inl hk
        · exact Or.inr (by rw [hk]; rfl)
      · rintro (hk | hk)
        · exact Or.inl hk
        · exact Or.inr (Option.some_injective _ hk).symm

theorem mem_alKeys_foldl (L : List Str) :
    ∀ (m : DMap) (k : Str),
      k ∈ alKeys (L.foldl step m) ↔ k ∈ alKeys m ∨ ∃ l ∈ L, keyOf l = some k := by
  induction L with
  | nil => intro m k; simp
  | cons x xs ih =>
    intro m k
    rw [List.foldl_cons, ih, mem_alKeys_step]
    simp only [List.mem_cons]
    constructor
    · rintro ((h | h) | ⟨l, hl, hk⟩)
      · exact Or.inl h
      · exact Or.inr ⟨x, Or.inl rfl, h⟩
      · exact Or.inr ⟨l, Or.inr hl, hk⟩
    · rintro (h | ⟨l, hl | hl, hk⟩)
      · exact Or.inl (Or.inl h)
      · exact Or.inl (Or.inr (hl ▸ hk))
      · exact Or.inr ⟨l, hl, hk⟩

/-- The key set of the device map is order-independent (helper for C4). -/
theorem mapKeys_perm (L1 L2 : List Str) (hperm : L1.Perm L2) (k : Str) :
    k ∈ alKeys (deviceMapOf L1) ↔ k ∈ alKeys (deviceMapOf L2) := by
  rw [deviceMapOf, deviceMapOf, mem_alKeys_foldl, mem_alKeys_foldl]
  simp only [alKeys, List.map_nil, List.not_mem_nil, false_or]
  constructor
  · rintro ⟨l, hl, hk⟩
    exact ⟨l, hperm.mem_iff.mp hl, hk⟩
  · rintro ⟨l, hl, hk⟩
    exact ⟨l, hperm.mem_iff.mpr hl, hk⟩

theorem applyRecord_hostname (d : Device) (r : RRec) :
    (applyRecord d r).hostname = d.hostname := rfl

theorem entries_hostname (L : List Str) :
    ∀ (m : DMap), (∀ l ∈ L, hostnameOk l = true) →
      (∀ p ∈ m, p.2.hostname.isEmpty = false) →
      ∀ p ∈ L.foldl step m, p.2.hostname.isEmpty = false := by
  induction L with
  | nil => intro m _ Hm; simpa using Hm
  | cons x xs ih =>
    intro m Hl Hm
    rw [List.foldl_cons]
    refine ih (step m x) (fun l hl => Hl l (List.mem_cons_of_mem _ hl)) ?_
    intro p hp
    rw [step] at hp
    cases hx : parseResolvedLine x with
    | none => rw [hx] at hp; exact Hm p hp
    | some r =>
      rw [hx] at hp
      obtain ⟨q, hq, rfl⟩ := List.mem_map.mp hp
      have hq2 : q.2.hostname.isEmpty = false := by
        by_cases hc : alContains m r.device_key
        · rw [if_pos hc] at hq
          exact Hm q hq
        · rw [if_neg hc] at hq
          rcases List.mem_append.mp hq with hq1 | hq1
          · exact Hm q hq1
          · have : q = (r.device_key, initDevice r) := by simpa using hq1
            subst this
            have := Hl x (List.mem_cons_self x xs)
            rw [hostnameOk, hx] at this
            simpa [initDevice] using this
      by_cases he : q.1 = r.device_key
      · rw [if_pos he]
        simpa [applyRecord_hostname] using hq2
      · rw [if_neg he]
        exact hq2

theorem emittedKeys_eq_alKeys (L : List Str) (H : ∀ l ∈ L, hostnameOk l = true) :
    emittedKeys L = alKeys (deviceMapOf L) := by
  rw [emittedKeys, alKeys]
  congr 1
  refine List.filter_eq_self.mpr ?_
  intro p hp
  have := entries_hostname L [] H (by simp) p hp
  simp [this]

theorem begins192_ne_nil (a : Str) (h : begins192 a = true) : a.isEmpty = false := by
  cases a with
  | nil => exact absurd h (by decide)
  | cons c t => rfl

theorem updAddr_keeps (d : Device) (r : RRec)
    (h192 : begins192 d.address = true) (hp : d.protocol ≠ lit "IPv6") :
    updAddr d r = (d.address, d.interface, d.protocol) := by
  have ha : d.address.isEmpty = false := begins192_ne_nil _ h192
  have hp' : decide (d.protocol = lit "IPv6") = false := decide_eq_false hp
  simp [updAddr, h192, ha, hp']

theorem step_find_keeps (m : DMap) (x : Str) (k : Str) (d : Device)
    (hf : alFind m k = some d)
    (h192 : begins192 d.address = true) (hp : d.protocol ≠ lit "IPv6") :
    ∃ d2, alFind (step m x) k = some d2 ∧
      d2.address = d.address ∧ d2.interface = d.interface ∧ d2.protocol = d.protocol := by
  rw [step]
  cases hx : parseResolvedLine x with
  | none => exact ⟨d, hf, rfl, rfl, rfl⟩
  | some r =>
    dsimp only
    by_cases hk : k = r.device_key
    · have hc : alContains m r.device_key = true := hk ▸ alFind_some_contains m k d hf
      rw [if_pos hc, alFind_alUpdate, if_pos hk, hf]
      refine ⟨applyRecord d r, rfl, ?_, ?_, ?_⟩ <;>
        simp [applyRecord, updAddr_keeps d r h192 hp]
    · by_cases hc : alContains m r.device_key
      · rw [if_pos hc, alFind_alUpdate, if_neg hk, hf]
        exact ⟨d, rfl, rfl, rfl, rfl⟩
      · rw [if_neg hc, alFind_alUpdate, if_neg hk,
          alFind_append_of_some m _ k d hf]
        exact ⟨d, rfl, rfl, rfl, rfl⟩

/-- C5 (amended): once the map holds an entry whose selected address starts
    with 192.168. AND whose recorded protocol field is not the literal "IPv6",
    no later record for the same device key replaces its address, interface or
    protocol.  (Without the protocol side condition the property is false: see
    the counterexample, which exploits the IPv4-beats-IPv6 branch at app.py
    line 1224 firing on a 192.168. address recorded under protocol "IPv6".) -/
theorem c5_private_address_sticky :
    ∀ (L : List Str) (m : DMap) (k : Str) (d : Device),
      alFind m k = some d →
      begins192 d.address = true →
      d.protocol ≠ lit "IPv6" →
      ∃ d', alFind (L.foldl step m) k = some d' ∧
        d'.address = d.address ∧ d'.interface = d.interface ∧
        d'.protocol = d.protocol := by
  intro L
  induction L with
  | nil => intro m k d hf _ _; exact ⟨d, hf, rfl, rfl, rfl⟩
  | cons x xs ih =>
    intro m k d hf h192 hp
    obtain ⟨d2, hf2, ha2, hi2, hp2⟩ := step_find_keeps m x k d hf h192 hp
    rw [List.foldl_cons]
    obtain ⟨d3, hf3, ha3, hi3, hp3⟩ :=
      ih (step m x) k d2 hf2 (ha2 ▸ h192) (hp2 ▸ hp)
    exact ⟨d3, hf3, ha3.trans ha2, hi3.trans hi2, hp3.trans hp2⟩

/-- Two resolved lines with the same merge key: the first carries a 192.168.
    address but advertises protocol IPv6; the second carries a non-private
    address under protocol IPv4. -/
def exLineC5a : Str := lit "=;eth0;IPv6;n;s;local;h;192.168.1.5;0;t"

/-- The later record with a non-192.168. IPv4 address. -/
def exLineC5b : Str := lit "=;eth1;IPv4;n;s;local;h;10.0.0.1;0;t"

/-- Like exLineC5a but with protocol IPv4 (the realistic case). -/
def exLineC5c : Str := lit "=;eth0;IPv4;n;s;local;h;192.168.1.5;0;t"

/-- C5 counterexample: after the first record the device's selected address is
    192.168.1.5, yet processing the later IPv4 record replaces it with
    10.0.0.1, which does not start with 192.168. — the claim as stated fails
    when the 192.168. address was recorded under protocol "IPv6". -/
theorem c5_counterexample :
    (parseLines [exLineC5a]).map (fun d => d.address) = [lit "192.168.1.5"] ∧
    (parseLines [exLineC5a, exLineC5b]).map (fun d => d.address) = [lit "10.0.0.1"] := by
  exact ⟨by decide, by decide⟩

/-- The merged entry produced by exLineC5c alone. -/
def dC5 : Device :=
  { name := lit "n", interface := lit "eth0", protocol := lit "IPv4",
    hostname := lit "h", address := lit "192.168.1.5", port := lit "0",
    firmware_version := none, feature_flags := none, service_type := lit "s",
    raw_avahi_data := [exLineC5c] }

/-- C5 witness: the amended theorem applied to a concrete map holding a
    192.168. IPv4 entry and a concrete later record. -/
theorem c5_witness :
    ∃ d', alFind ([exLineC5b].foldl step (deviceMapOf [exLineC5c])) (lit "h|s") = some d' ∧
      d'.address = dC5.address ∧ d'.interface = dC5.interface ∧
      d'.protocol = dC5.protocol :=
  c5_private_address_sticky [exLineC5b] (deviceMapOf [exLineC5c]) (lit "h|s") dC5
    (by decide) (by decide) (by decide)

/-- A resolved line with hostname x and an empty address field. -/
def exLineC4a : Str := lit "=;eth0;IPv4;x;s;local;x;;0;t"

/-- A resolved line with an empty hostname whose decoded name is x, mapping to
    the same merge key as exLineC4a, also with an empty address. -/
def exLineC4b : Str := lit "=;eth0;IPv4;x;s;local;;;0;t"

/-- C4 counterexample: the two lines form the same multiset in either order,
    yet one order emits a device for key x|s and the other emits nothing: the
    hostname stored for a key is taken from whichever record arrives first, and
    the emission filter tests it.  So emitted-list membership is NOT invariant
    under reordering, falsifying the claim as stated. -/
theorem c4_counterexample :
    [exLineC4a, exLineC4b].Perm [exLineC4b, exLineC4a] ∧
    emittedKeys [exLineC4a, exLineC4b] = [lit "x|s"] ∧
    emittedKeys [exLineC4b, exLineC4a] = [] ∧
    (parseLines [exLineC4a, exLineC4b]).length = 1 ∧
    parseLines [exLineC4b, exLineC4a] = [] := by
  refine ⟨List.Perm.swap _ _ _, by decide, by decide, by decide, by decide⟩

/-- C4 (amended): for any two orderings of the same multiset of lines, the set
    of merged device keys is identical; and when every resolved record carries
    a nonempty hostname (so no hostname-keyed and name-keyed records can race
    for the same key), membership of the emitted device list is also identical
    across orderings. -/
theorem c4_merge_order_independent :
    ∀ (L1 L2 : List Str), L1.Perm L2 →
      (∀ k, k ∈ alKeys (deviceMapOf L1) ↔ k ∈ alKeys (deviceMapOf L2)) ∧
      ((∀ l ∈ L1, hostnameOk l = true) →
        ∀ k, k ∈ emittedKeys L1 ↔ k ∈ emittedKeys L2) := by
  intro L1 L2 hperm
  refine ⟨mapKeys_perm L1 L2 hperm, ?_⟩
  intro H k
  have H2 : ∀ l ∈ L2, hostnameOk l = true := fun l hl => H l (hperm.mem_iff.mpr hl)
  rw [emittedKeys_eq_alKeys L1 H, emittedKeys_eq_alKeys L2 H2]
  exact mapKeys_perm L1 L2 hperm k

/-- C4 witness: the amended theorem applied to a concrete pair of reorderings
    of hostname-carrying lines, evaluated at the key of the swapped pair. -/
theorem c4_witness :
    (lit "x|s" ∈ alKeys (deviceMapOf [exLineC4a, exLine1]) ↔
      lit "x|s" ∈ alKeys (deviceMapOf [exLine1, exLineC4a])) ∧
    (lit "x|s" ∈ emittedKeys [exLineC4a, exLine1] ↔
      lit "x|s" ∈ emittedKeys [exLine1, exLineC4a]) := by
  have h := c4_merge_order_independent [exLineC4a, exLine1] [exLine1, exLineC4a]
    (List.Perm.swap _ _ _)
  exact ⟨h.1 (lit "x|s"), h.2 (by decide) (lit "x|s")⟩

/- ---------------------------------------------------------------------
   External-world model shared by the status adapters (app.py lines 44-114,
   433-574, 738-809): subprocess outcomes and parsed-JSON payloads.
   --------------------------------------------------------------------- -/

/-- What subprocess.run may raise: a timeout, a missing binary, or another
    subprocess error. -/
inductive ProbeErr where
  | timeoutExpired
  | fileNotFoundError
  | subprocessError
deriving DecidableEq, Repr

/-- A JSON value as produced by json.loads (top levels the code meets are
    objects; nested values may be anything). -/
inductive J where
  | null
  | jb (b : Bool)
  | jn (i : Int)
  | js (s : Str)
  | jarr (xs : List J)
  | jobj (kvs : List (Str × J))

/-- A completed subprocess.run: exit code, stdout, and — for the callers that
    parse stdout as JSON — the result of json.loads on it (`none` models a
    JSONDecodeError; top-level payloads are modelled as JSON objects). -/
structure RunRes where
  rc : Int
  out : Str
  jsonTop : Option (List (Str × J)) := none

/-- An external command invocation as seen by the caller. -/
abbrev RunOut := Except ProbeErr RunRes

def probeErrToPy : ProbeErr → PyExc
  | .timeoutExpired => .timeoutExpired
  | .fileNotFoundError => .fileNotFoundError
  | .subprocessError => .subprocessError

/-- subprocess.run inside a try block: a probe failure raises. -/
def runP (p : RunOut) : Except PyExc RunRes :=
  match p with
  | .ok r => .ok r
  | .error e => .error (probeErrToPy e)

/-- A Python try/except over a fixed tuple of exception classes, returning the
    given fallback value for caught exceptions and re-raising the rest. -/
def catchThese (caught : PyExc → Bool) (dflt : α) : Except PyExc α → Except PyExc α
  | .ok a => .ok a
  | .error e => if caught e then .ok dflt else .error e

/-- except (subprocess.TimeoutExpired, json.JSONDecodeError,
    subprocess.SubprocessError) — the tuple used by the curl-based LedFX
    adapters; note FileNotFoundError is NOT in it. -/
def curlCatch : PyExc → Bool
  | .timeoutExpired => true
  | .jsonDecodeError => true
  | .subprocessError => true
  | _ => false

/-- dict lookup on a JSON object. -/
def jLook : List (Str × J) → Str → Option J
  | [], _ => none
  | (k', v) :: t, k => if k' = k then some v else jLook t k

/-- dict.get(k, d) on a JSON object. -/
def jObjGet (kvs : List (Str × J)) (k : Str) (d : J) : J := (jLook kvs k).getD d

/-- Python truthiness of a JSON value. -/
def pyTruthy : J → Bool
  | J.null => false
  | J.jb b => b
  | J.jn i => i != 0
  | J.js s => !s.isEmpty
  | J.jarr xs => !xs.isEmpty
  | J.jobj kvs => !kvs.isEmpty

/-- Fragment returned by get_ledfx_info (app.py lines 95-114). -/
structure InfoFrag where
  connected : Bool
  version : J
  data : Option (List (Str × J))

/-- The unavailable fragment of get_ledfx_info. -/
def defaultInfoFrag : InfoFrag := { connected := false, version := J.null, data := none }

/-- get_ledfx_info (app.py lines 95-114): curl /api/info, parse JSON, read the
    version; timeouts, JSON errors and subprocess errors are caught, a missing
    curl binary (FileNotFoundError) is not. -/
def get_ledfx_info (p : RunOut) : Except PyExc InfoFrag :=
  catchThese curlCatch defaultInfoFrag (do
    let r ← runP p
    if r.rc = 0 then
      match r.jsonTop with
      | none => throw PyExc.jsonDecodeError
      | some info =>
        pure { connected := true,
               version := jObjGet info (lit "version") (J.js (lit "unknown")),
               data := some info }
    else pure defaultInfoFrag)

/-- Leftmost match of the version pattern digits.digits.digits (re.search at
    app.py line 83), with greedy digit runs. -/
def matchVerAt (s : Str) : Option Str :=
  let d1 := s.takeWhile Char.isDigit
  let r1 := s.drop d1.length
  if d1.isEmpty then none
  else
    match r1 with
    | '.' :: r2 =>
      let d2 := r2.takeWhile Char.isDigit
      let r3 := r2.drop d2.length
      if d2.isEmpty then none
      else
        match r3 with
        | '.' :: r4 =>
          let d3 := r4.takeWhile Char.isDigit
          if d3.isEmpty then none
          else some (d1 ++ '.' :: d2 ++ '.' :: d3)
        | _ => none
    | _ => none

/-- Scan for the leftmost version triple. -/
def findVerTriple : Str → Option Str
  | [] => none
  | s@(_ :: t) =>
    match matchVerAt s with
    | some v => some v
    | none => findVerTriple t

/-- The probes check_container_status may run for one container. -/
structure ContainerEnv where
  ps : RunOut
  info : RunOut
  version : RunOut

/-- Result of check_container_status. -/
structure ContainerStatus where
  running : Bool
  version : J

/-- check_container_status (app.py lines 44-92): docker ps filtered by name;
    when running, the version comes from the LedFX API (for ledfx) or from
    shairport-sync -V (for shairport-sync).  Every failure path is caught:
    the outer except covers the docker query, and the inner try/except
    Exception blocks cover the version lookups. -/
def check_container_status (name : Str) (e : ContainerEnv) : ContainerStatus :=
  match e.ps with
  | .error _ => { running := false, version := J.null }
  | .ok r =>
    if r.rc = 0 && hasSub r.out name then
      let version :=
        if name = lit "ledfx" then
          match get_ledfx_info e.info with
          | .ok f => if f.connected && pyTruthy f.version then f.version else J.null
          | .error _ => J.null
        else if name = lit "shairport-sync" then
          match e.version with
          | .ok vr =>
            if vr.rc = 0 then
              match findVerTriple ((splitOnChar '\n' vr.out).headD []) with
              | some v => J.js v
              | none => J.null
            else J.null
          | .error _ => J.null
        else J.null
      { running := true, version := version }
    else { running := false, version := J.null }

/- ---------------------------------------------------------------------
   AirPlay name, identity matcher, get_airplay_status (app.py 433-574)
   --------------------------------------------------------------------- -/

/-- Matcher for the configuration-name patterns: at the current position,
    consume `name`, optional whitespace, `=`, optional whitespace, a quoted
    non-quote run (nonempty unless allowEmpty), and — when needSemi — a
    trailing semicolon.  Returns (matched prefix through the opening quote,
    quoted group, remainder after the match). -/
def dropLit (p s : Str) : Option Str :=
  if begins p s then some (s.drop p.length) else none

def matchNameAt (needSemi allowEmpty : Bool) (s : Str) : Option (Str × Str × Str) := do
  let s1 ← dropLit (lit "name") s
  let ws1 := s1.takeWhile isWs
  let s2 := s1.dropWhile isWs
  let s3 ← dropLit (lit "=") s2
  let ws2 := s3.takeWhile isWs
  let s4 := s3.dropWhile isWs
  let s5 ← dropLit (lit "\"") s4
  let inner := s5.takeWhile (fun c => c ≠ '"')
  let s6 := s5.dropWhile (fun c => c ≠ '"')
  let s7 ← dropLit (lit "\"") s6
  if !allowEmpty && inner.isEmpty then none
  else if needSemi then do
    let s8 ← dropLit (lit ";") s7
    some (lit "name" ++ ws1 ++ '=' :: ws2 ++ ['"'], inner, s8)
  else some (lit "name" ++ ws1 ++ '=' :: ws2 ++ ['"'], inner, s7)

/-- re.search for the configuration-name patterns: leftmost match, returning
    (text before the match, matched prefix through the opening quote, quoted
    group, text after the match). -/
def scanNameMatch (needSemi allowEmpty : Bool) : Str → Option (Str × Str × Str × Str)
  | [] => none
  | s@(c :: t) =>
    match matchNameAt needSemi allowEmpty s with
    | some (g1, inner, rest) => some ([], g1, inner, rest)
    | none =>
      (scanNameMatch needSemi allowEmpty t).map
        (fun q => (c :: q.1, q.2.1, q.2.2.1, q.2.2.2))

/-- get_airplay_name (app.py lines 433-445): read shairport-sync.conf and take
    the first `name = "..."` entry (re pattern name\s*=\s*"([^\"]+)"),
    stripped; default Airglow when the file or the entry is absent. -/
def get_airplay_name (conf : Option Str) : Str :=
  match conf with
  | none => lit "Airglow"
  | some content =>
    match scanNameMatch false false content with
    | some (_, _, inner, _) => pyStrip inner
    | none => lit "Airglow"

/-- The identity match of get_airplay_status (app.py lines 520-532):
    case-insensitive containment of the configured name in the device's display
    name or hostname, else containment after stripping '~' and spaces. -/
def deviceMatches (device_name : Str) (d : Device) : Bool :=
  let device_display_name := lowerStr d.name
  let device_hostname := lowerStr d.hostname
  let device_name_clean := lowerStr (replaceSub (replaceSub device_name (lit "~") []) (lit " ") [])
  let display_clean := lowerStr (replaceSub (replaceSub device_display_name (lit "~") []) (lit " ") [])
  let hostname_clean := lowerStr (replaceSub (replaceSub device_hostname (lit "~") []) (lit " ") [])
  hasSub device_display_name (lowerStr device_name) ||
  hasSub device_hostname (lowerStr device_name) ||
  hasSub display_clean device_name_clean ||
  hasSub hostname_clean device_name_clean

/-- The external calls get_airplay_status makes. -/
structure AirplayEnv where
  conf : Option Str
  shairport : ContainerEnv
  dbus : RunOut
  browse2 : RunOut
  browse1 : RunOut

/-- The error outcomes get_airplay_status can report.  (The not-found message
    joins a set() of up to five seen names, whose iteration order Python does
    not define; the payload here keeps the underlying first-five list.) -/
inductive AirplayErr where
  | deviceNameNotConfigured
  | browseTimedOut
  | browseOtherError
  | deviceNotFoundSeen (seen : List Str)
  | deviceNotFoundNone
  | shairportNotRunning
deriving Repr

/-- The structure returned by get_airplay_status (app.py lines 450-457). -/
structure AirplayStatus where
  configured : Bool
  device_name : Option Str
  advertising : Bool
  running : Bool
  avahi_running : Bool
  dbus_connected : Option Bool
  error : Option AirplayErr

/-- get_airplay_status (app.py lines 448-574): read the configured name, check
    the shairport-sync container, probe D-Bus, browse both service types, and
    match the configured name against the parsed devices. -/
def get_airplay_status (e : AirplayEnv) : AirplayStatus :=
  let device_name := get_airplay_name e.conf
  let configured := !device_name.isEmpty
  let dn_field := if !device_name.isEmpty then some device_name else none
  let cs := check_container_status (lit "shairport-sync") e.shairport
  let running := cs.running
  let dbus_connected : Option Bool :=
    if running then
      some (match e.dbus with
        | .ok r => r.rc = 0 && hasSub r.out (lit "org.freedesktop.Avahi")
        | .error _ => false)
    else none
  let base : AirplayStatus :=
    { configured, device_name := dn_field, advertising := false, running,
      avahi_running := running, dbus_connected, error := none }
  if running then
    if device_name.isEmpty then
      { base with error := some .deviceNameNotConfigured }
    else
      match e.browse2, e.browse1 with
      | .ok r2, .ok r1 =>
        let ds2 := if r2.rc = 0 && !r2.out.isEmpty then parse_avahi_browse_output r2.out else []
        let found2 := ds2.any (deviceMatches device_name)
        let ds1 :=
          if !found2 && (r1.rc = 0 && !r1.out.isEmpty) then parse_avahi_browse_output r1.out
          else []
        let found := found2 || ds1.any (deviceMatches device_name)
        let seen := (ds2 ++ ds1).map (fun d =>
          let disp := lowerStr d.name
          if !disp.isEmpty then disp else lowerStr d.hostname)
        let err : Option AirplayErr :=
          if found then none
          else if !seen.isEmpty then some (.deviceNotFoundSeen (seen.take 5))
          else some .deviceNotFoundNone
        { base with advertising := found, error := err }
      | .error ProbeErr.timeoutExpired, _ => { base with error := some .browseTimedOut }
      | .error _, _ => { base with error := some .browseOtherError }
      | .ok _, .error ProbeErr.timeoutExpired => { base with error := some .browseTimedOut }
      | .ok _, .error _ => { base with error := some .browseOtherError }
  else
    { base with error := some .shairportNotRunning }

/-- The devices that get_airplay_status can possibly have matched: those parsed
    from the two browse outputs it consults. -/
def airplayCandidates (e : AirplayEnv) : List Device :=
  (match e.browse2 with
   | .ok r2 => if r2.rc = 0 && !r2.out.isEmpty then parse_avahi_browse_output r2.out else []
   | .error _ => []) ++
  (match e.browse1 with
   | .ok r1 => if r1.rc = 0 && !r1.out.isEmpty then parse_avahi_browse_output r1.out else []
   | .error _ => [])

/-- C7: whenever get_airplay_status reports advertising=true, some device
    parsed from the avahi browse outputs it consulted satisfies the identity
    match (case-insensitive containment, or containment after stripping spaces
    and '~') against the configured device name. -/
theorem c7_advertising_implies_match (e : AirplayEnv)
    (h : (get_airplay_status e).advertising = true) :
    ∃ d ∈ airplayCandidates e, deviceMatches (get_airplay_name e.conf) d = true := by
  obtain ⟨conf, sp, dbus, b2, b1⟩ := e
  cases b2 with
  | error pe2 =>
    exfalso
    simp only [get_airplay_status] at h
    split at h
    · split at h
      · simp at h
      · cases pe2 <;> simp at h
    · simp at h
  | ok r2 =>
    cases b1 with
    | error pe1 =>
      exfalso
      simp only [get_airplay_status] at h
      split at h
      · split at h
        · simp at h
        · cases pe1 <;> simp at h
      · simp at h
    | ok r1 =>
      simp only [get_airplay_status] at h
      split at h
      · split at h
        · exact absurd h (by simp)
        · dsimp only at h
          dsimp only [airplayCandidates]
          by_cases hg2 : (r2.rc = 0 && !r2.out.isEmpty) = true
          · rw [if_pos hg2] at h ⊢
            by_cases hf2 : (parse_avahi_browse_output r2.out).any
                (deviceMatches (get_airplay_name conf)) = true
            · obtain ⟨d, hd, hm⟩ := List.any_eq_true.mp hf2
              exact ⟨d, List.mem_append_left _ hd, hm⟩
            · rw [Bool.not_eq_true] at hf2
              rw [hf2] at h
              simp only [Bool.not_false, Bool.true_and, Bool.false_or] at h
              split at h
              · obtain ⟨d, hd, hm⟩ := List.any_eq_true.mp h
                rename_i hg1
                rw [if_pos hg1]
                exact ⟨d, List.mem_append_right _ hd, hm⟩
              · simp at h
          · rw [Bool.not_eq_true] at hg2
            rw [hg2] at h ⊢
            simp only [Bool.false_eq_true, if_false, List.any_nil, Bool.false_or,
              Bool.not_false, Bool.true_and, List.nil_append] at h ⊢
            split at h
            · obtain ⟨d, hd, hm⟩ := List.any_eq_true.mp h
              rename_i hg1
              rw [if_pos hg1]
              exact ⟨d, hd, hm⟩
            · simp at h
      · exact absurd h (by simp)

/-- A concrete environment in which the airplay adapter finds its own device. -/
def envC7 : AirplayEnv :=
  { conf := some (lit "name = \"Living Room\";")
    shairport := { ps := Except.ok { rc := 0, out := lit "shairport-sync" },
                   info := Except.error ProbeErr.subprocessError,
                   version := Except.ok { rc := 0, out := lit "4.3.2" } }
    dbus := Except.ok { rc := 0, out := lit "org.freedesktop.Avahi" }
    browse2 := Except.ok { rc := 0, out := exLine1 }
    browse1 := Except.ok { rc := 0, out := [] } }

/-- C7 witness: in the concrete environment the flag is set and the theorem
    produces the matching device. -/
theorem c7_witness :
    (get_airplay_status envC7).advertising = true ∧
    ∃ d ∈ airplayCandidates envC7,
      deviceMatches (get_airplay_name envC7.conf) d = true := by
  have h : (get_airplay_status envC7).advertising = true := by decide
  exact ⟨h, c7_advertising_implies_match envC7 h⟩

/- ---------------------------------------------------------------------
   _sanitize_airplay_name / update_airplay_name (app.py lines 577-609)
   --------------------------------------------------------------------- -/

/-- The exceptions update_airplay_name can raise. -/
inductive UpdErr where
  | valueError (msg : Str)
  | fileNotFoundError (msg : Str)
deriving DecidableEq, Repr

/-- _sanitize_airplay_name (app.py lines 577-588). -/
def sanitize_airplay_name (name : Option Str) : Except UpdErr Str :=
  match name with
  | none => Except.error (UpdErr.valueError (lit "AirPlay name is required."))
  | some n =>
    let trimmed := pyStrip n
    if trimmed.isEmpty then
      Except.error (UpdErr.valueError (lit "AirPlay name cannot be empty."))
    else if trimmed.length > 50 then
      Except.error (UpdErr.valueError (lit "AirPlay name must be 50 characters or fewer."))
    else if trimmed.contains '"' || trimmed.contains '\n' || trimmed.contains '\r' then
      Except.error (UpdErr.valueError (lit "AirPlay name cannot contain quotes or new lines."))
    else Except.ok trimmed

/-- update_airplay_name (app.py lines 591-609) as a transformer of the
    configuration file's state: given the file content (none when absent) and
    the requested name, return the resulting file content together with the
    function's outcome.  The file is written only on the final success path;
    re.subn with count=1 replaces the leftmost match of
    (name\s*=\s*")([^\"]*)(";) keeping groups 1 and 3. -/
def update_airplay_name (fs : Option Str) (new_name : Option Str) :
    Option Str × Except UpdErr Str :=
  match sanitize_airplay_name new_name with
  | Except.error e => (fs, Except.error e)
  | Except.ok sanitized =>
    match fs with
    | none =>
      (fs, Except.error (UpdErr.fileNotFoundError
        (lit "Shairport configuration file not found.")))
    | some content =>
      match scanNameMatch true true content with
      | none =>
        (fs, Except.error (UpdErr.valueError
          (lit "Unable to locate AirPlay name entry in shairport-sync.conf.")))
      | some (before, g1, _, rest) =>
        (some (before ++ g1 ++ sanitized ++ lit "\";" ++ rest), Except.ok sanitized)

theorem begins_append (p : Str) : ∀ s : Str, begins p s = true → s = p ++ s.drop p.length := by
  induction p with
  | nil => intro s _; simp
  | cons a p' ih =>
    intro s h
    cases s with
    | nil => simp [begins] at h
    | cons b t =>
      rw [begins] at h
      obtain ⟨h1, h2⟩ := (Bool.and_eq_true _ _).mp h
      have ha : a = b := of_decide_eq_true h1
      subst ha
      simpa [List.cons_append] using ih t h2


theorem dropLit_decomp (p s r : Str) (h : dropLit p s = some r) : s = p ++ r := by
  rw [dropLit] at h
  split at h
  case isFalse => exact absurd h (by simp)
  case isTrue hb =>
    have := begins_append p s hb
    rw [this]
    have hr : r = s.drop p.length := (Option.some_injective _ h).symm
    rw [hr]

theorem matchNameAt_decomp (aE : Bool) (s g1 inner rest : Str)
    (h : matchNameAt true aE s = some (g1, inner, rest)) :
    s = g1 ++ inner ++ lit "\";" ++ rest := by
  rw [matchNameAt] at h
  cases hd1 : dropLit (lit "name") s with
  | none => rw [hd1] at h; simp at h
  | some s1 =>
    rw [hd1] at h
    simp only [Option.bind_eq_bind, Option.some_bind] at h
    cases hd2 : dropLit (lit "=") (s1.dropWhile isWs) with
    | none => rw [hd2] at h; simp at h
    | some s3 =>
      rw [hd2] at h
      simp only [Option.some_bind] at h
      cases hd3 : dropLit (lit "\"") (s3.dropWhile isWs) with
      | none => rw [hd3] at h; simp at h
      | some s5 =>
        rw [hd3] at h
        simp only [Option.some_bind] at h
        cases hd4 : dropLit (lit "\"") (s5.dropWhile (fun c => c ≠ '"')) with
        | none => rw [hd4] at h; simp at h
        | some s7 =>
          rw [hd4] at h
          simp only [Option.some_bind] at h
          split at h
          case isTrue => exact absurd h (by simp)
          case isFalse hae =>
            simp only [if_true] at h
            cases hd5 : dropLit (lit ";") s7 with
            | none => rw [hd5] at h; simp at h
            | some s8 =>
              rw [hd5] at h
              simp only [Option.some_bind] at h
              have hinj := Option.some_injective _ h
              rw [Prod.mk.injEq, Prod.mk.injEq] at hinj
              obtain ⟨hg, hi, hr⟩ := hinj
              have e1 := dropLit_decomp _ _ _ hd1
              have e2 := dropLit_decomp _ _ _ hd2
              have e3 := dropLit_decomp _ _ _ hd3
              have e4 := dropLit_decomp _ _ _ hd4
              have e5 := dropLit_decomp _ _ _ hd5
              have w1 : s1 = s1.takeWhile isWs ++ s1.dropWhile isWs :=
                (List.takeWhile_append_dropWhile _ _).symm
              have w2 : s3 = s3.takeWhile isWs ++ s3.dropWhile isWs :=
                (List.takeWhile_append_dropWhile _ _).symm
              have w3 : s5 = s5.takeWhile (fun c => c ≠ '"') ++
                  s5.dropWhile (fun c => c ≠ '"') :=
                (List.takeWhile_append_dropWhile _ _).symm
              rw [← hg, ← hi, ← hr]
              conv_lhs => rw [e1, w1, e2, w2, e3, w3, e4, e5]
              simp only [show lit "=" = ['='] from rfl, show lit "\"" = ['"'] from rfl,
                show lit ";" = [';'] from rfl, show lit "\";" = ['"', ';'] from rfl,
                List.singleton_append, List.cons_append, List.append_assoc, List.nil_append]

theorem scanNameMatch_decomp (aE : Bool) :
    ∀ (s b g1 inner rest : Str),
      scanNameMatch true aE s = some (b, g1, inner, rest) →
      s = b ++ g1 ++ inner ++ lit "\";" ++ rest := by
  intro s
  induction s with
  | nil => intro b g1 inner rest h; simp [scanNameMatch] at h
  | cons c t ih =>
    intro b g1 inner rest h
    rw [scanNameMatch] at h
    split at h
    case h_1 g1' inner' rest' heq =>
      have hinj := Option.some_injective _ h
      rw [Prod.mk.injEq, Prod.mk.injEq, Prod.mk.injEq] at hinj
      obtain ⟨hb, hg, hi, hr⟩ := hinj
      have hd := matchNameAt_decomp aE (c :: t) g1' inner' rest' heq
      rw [← hb, ← hg, ← hi, ← hr]
      simpa using hd
    case h_2 heq =>
      rw [Option.map_eq_some'] at h
      obtain ⟨⟨b', g1', inner', rest'⟩, hq, he⟩ := h
      rw [Prod.mk.injEq, Prod.mk.injEq, Prod.mk.injEq] at he
      obtain ⟨hb, hg, hi, hr⟩ := he
      simp only at hb hg hi hr
      have hd := ih b' g1' inner' rest' hq
      rw [← hb, ← hg, ← hi, ← hr]
      simp [hd, List.append_assoc]

/-- Validity of a trimmed AirPlay name per _sanitize_airplay_name. -/
def nameValid (t : Str) : Prop :=
  t.isEmpty = false ∧ t.length ≤ 50 ∧ t.contains '"' = false ∧
  t.contains '\n' = false ∧ t.contains '\r' = false

/-- C10 (amended): update_airplay_name writes only on success.  It raises —
    returning the file unchanged — exactly when the name is None, or the name
    is invalid AFTER trimming (empty, longer than 50 characters, or containing
    a double quote, newline or carriage return), or the file is absent, or no
    name = "..." entry exists; on success it replaces exactly the leftmost
    name entry's quoted value and returns the trimmed name.  (The claim as
    stated applies the character conditions to the given name; the code checks
    the trimmed name, see the counterexample.) -/
theorem c10_update_only_on_success :
    ∀ (fs : Option Str) (nm : Option Str),
      (∀ e, (update_airplay_name fs nm).2 = Except.error e →
        (update_airplay_name fs nm).1 = fs) ∧
      (∀ s, (update_airplay_name fs nm).2 = Except.ok s →
        ∃ n content b g1 old rest,
          nm = some n ∧ s = pyStrip n ∧ fs = some content ∧
          content = b ++ g1 ++ old ++ lit "\";" ++ rest ∧
          scanNameMatch true true content = some (b, g1, old, rest) ∧
          (update_airplay_name fs nm).1 = some (b ++ g1 ++ s ++ lit "\";" ++ rest)) ∧
      ((∃ s, (update_airplay_name fs nm).2 = Except.ok s) ↔
        (∃ n, nm = some n ∧ nameValid (pyStrip n)) ∧
        (∃ c, fs = some c ∧ (scanNameMatch true true c).isSome = true)) := by
  intro fs nm
  cases nm with
  | none =>
    have hupd : update_airplay_name fs none =
        (fs, Except.error (UpdErr.valueError (lit "AirPlay name is required."))) := rfl
    refine ⟨fun e h => by rw [hupd], fun s h => ?_, ?_⟩
    · rw [hupd] at h; exact absurd h (by simp)
    · constructor
      · rintro ⟨s, h⟩; rw [hupd] at h; exact absurd h (by simp)
      · rintro ⟨⟨n, hn, _⟩, _⟩; exact Option.noConfusion hn
  | some n =>
    by_cases h1 : (pyStrip n).isEmpty = true
    · have hupd : update_airplay_name fs (some n) =
          (fs, Except.error (UpdErr.valueError (lit "AirPlay name cannot be empty."))) := by
        rw [update_airplay_name, sanitize_airplay_name, if_pos h1]
      refine ⟨fun e h => by rw [hupd], fun s h => ?_, ?_⟩
      · rw [hupd] at h; exact absurd h (by simp)
      · constructor
        · rintro ⟨s, h⟩; rw [hupd] at h; exact absurd h (by simp)
        · rintro ⟨⟨n', hn', hne, _⟩, _⟩
          obtain rfl : n = n' := Option.some_injective _ hn'
          exact absurd h1 (by rw [hne]; simp)
    · by_cases h2 : (pyStrip n).length > 50
      · have hupd : update_airplay_name fs (some n) =
            (fs, Except.error (UpdErr.valueError
              (lit "AirPlay name must be 50 characters or fewer."))) := by
          rw [update_airplay_name, sanitize_airplay_name, if_neg h1, if_pos h2]
        refine ⟨fun e h => by rw [hupd], fun s h => ?_, ?_⟩
        · rw [hupd] at h; exact absurd h (by simp)
        · constructor
          · rintro ⟨s, h⟩; rw [hupd] at h; exact absurd h (by simp)
          · rintro ⟨⟨n', hn', _, hlen, _⟩, _⟩
            obtain rfl : n = n' := Option.some_injective _ hn'
            omega
      · by_cases h3 : ((pyStrip n).contains '"' || (pyStrip n).contains '\n' ||
            (pyStrip n).contains '\r') = true
        · have hupd : update_airplay_name fs (some n) =
              (fs, Except.error (UpdErr.valueError
                (lit "AirPlay name cannot contain quotes or new lines."))) := by
            rw [update_airplay_name, sanitize_airplay_name, if_neg h1, if_neg h2, if_pos h3]
          refine ⟨fun e h => by rw [hupd], fun s h => ?_, ?_⟩
          · rw [hupd] at h; exact absurd h (by simp)
          · constructor
            · rintro ⟨s, h⟩; rw [hupd] at h; exact absurd h (by simp)
            · rintro ⟨⟨n', hn', _, _, hq, hnl, hcr⟩, _⟩
              obtain rfl : n = n' := Option.some_injective _ hn'
              rw [hq, hnl, hcr] at h3
              simp at h3
        · have hsan : sanitize_airplay_name (some n) = Except.ok (pyStrip n) := by
            rw [sanitize_airplay_name, if_neg h1, if_neg h2, if_neg h3]
          have hvalid : nameValid (pyStrip n) := by
            rw [Bool.not_eq_true, Bool.or_eq_false_iff, Bool.or_eq_false_iff] at h3
            exact ⟨(Bool.not_eq_true _) ▸ h1, Nat.le_of_not_lt h2,
              h3.1.1, h3.1.2, h3.2⟩
          cases fs with
          | none =>
            have hupd : update_airplay_name none (some n) =
                (none, Except.error (UpdErr.fileNotFoundError
                  (lit "Shairport configuration file not found."))) := by
              rw [update_airplay_name, hsan]
            refine ⟨fun e h => by rw [hupd], fun s h => ?_, ?_⟩
            · rw [hupd] at h; exact absurd h (by simp)
            · constructor
              · rintro ⟨s, h⟩; rw [hupd] at h; exact absurd h (by simp)
              · rintro ⟨_, ⟨c, hc, _⟩⟩; exact Option.noConfusion hc
          | some content =>
            cases hscan : scanNameMatch true true content with
            | none =>
              have hupd : update_airplay_name (some content) (some n) =
                  (some content, Except.error (UpdErr.valueError
                    (lit "Unable to locate AirPlay name entry in shairport-sync.conf."))) := by
                rw [update_airplay_name, hsan]
                dsimp only
                rw [hscan]
              refine ⟨fun e h => by rw [hupd], fun s h => ?_, ?_⟩
              · rw [hupd] at h; exact absurd h (by simp)
              · constructor
                · rintro ⟨s, h⟩; rw [hupd] at h; exact absurd h (by simp)
                · rintro ⟨_, ⟨c, hc, hsome⟩⟩
                  obtain rfl : content = c := Option.some_injective _ hc
                  rw [hscan] at hsome
                  simp at hsome
            | some q =>
              obtain ⟨b, g1, old, rest⟩ := q
              have hupd : update_airplay_name (some content) (some n) =
                  (some (b ++ g1 ++ pyStrip n ++ lit "\";" ++ rest),
                    Except.ok (pyStrip n)) := by
                rw [update_airplay_name, hsan]
                dsimp only
                rw [hscan]
              refine ⟨fun e h => by rw [hupd] at h; exact absurd h (by simp),
                fun s h => ?_, ?_⟩
              · rw [hupd] at h
                injection h with hse
                subst hse
                exact ⟨n, content, b, g1, old, rest, rfl, rfl, rfl,
                  scanNameMatch_decomp true content b g1 old rest hscan, hscan,
                  by rw [hupd]⟩
              · constructor
                · intro _
                  exact ⟨⟨n, rfl, hvalid⟩, ⟨content, rfl, by rw [hscan]; rfl⟩⟩
                · intro _
                  exact ⟨pyStrip n, by rw [hupd]⟩

/-- A configuration file holding one name entry. -/
def confC10 : Str := lit "name = \"Old\";"

/-- C10 counterexample: the name "abc" followed by a newline contains a
    newline, yet update_airplay_name does not raise: the newline is removed by
    trimming, the file IS rewritten, and the trimmed name is returned — the
    claim's character conditions hold of the trimmed name, not the given one. -/
theorem c10_counterexample :
    (lit "abc\n").contains '\n' = true ∧
    update_airplay_name (some confC10) (some (lit "abc\n")) =
      (some (lit "name = \"abc\";"), Except.ok (lit "abc")) := by
  exact ⟨by decide, by rfl⟩

/-- C10 witness: the behaviour theorem applied to a concrete successful
    update, with its success hypothesis discharged by evaluation. -/
theorem c10_witness :
    ∃ n content b g1 old rest,
      (some (lit "  Room  ") : Option Str) = some n ∧ lit "Room" = pyStrip n ∧
      (some confC10 : Option Str) = some content ∧
      content = b ++ g1 ++ old ++ lit "\";" ++ rest ∧
      scanNameMatch true true content = some (b, g1, old, rest) ∧
      (update_airplay_name (some confC10) (some (lit "  Room  "))).1 =
        some (b ++ g1 ++ lit "Room" ++ lit "\";" ++ rest) :=
  ((c10_update_only_on_success (some confC10) (some (lit "  Room  "))).2.1
    (lit "Room") (by rfl))

/- ---------------------------------------------------------------------
   The remaining status source adapters (app.py lines 117-241, 244-327,
   686-735) and the /api/status aggregation (lines 738-809).
   --------------------------------------------------------------------- -/

/-- .items() on a JSON value: AttributeError unless it is an object. -/
def jItemsE : J → Except PyExc (List (Str × J))
  | J.jobj kvs => Except.ok kvs
  | _ => Except.error PyExc.attributeError

/-- .get(k, d) on a JSON value: AttributeError unless it is an object. -/
def jGetE (v : J) (k : Str) (d : J) : Except PyExc J :=
  match v with
  | J.jobj kvs => Except.ok (jObjGet kvs k d)
  | _ => Except.error PyExc.attributeError

/-- isinstance(v, dict). -/
def isObj : J → Bool
  | J.jobj _ => true
  | _ => false

/-- value[:5]: TypeError unless the value is sliceable (list or string here). -/
def pySlice5E : J → Except PyExc J
  | J.jarr xs => Except.ok (J.jarr (xs.take 5))
  | J.js s => Except.ok (J.js (s.take 5))
  | _ => Except.error PyExc.typeError

/-- str(v) for the JSON values the code interpolates (container reprs are not
    modelled; the aggregator theorems exclude them by wellformedness). -/
def pyStr : J → Str
  | J.null => lit "None"
  | J.jb true => lit "True"
  | J.jb false => lit "False"
  | J.jn i => (toString i).toList
  | J.js s => s
  | J.jarr _ => []
  | J.jobj _ => []

/-- Sequential mapM over Except, mirroring a Python for loop that may raise. -/
def mapME (f : α → Except PyExc β) : List α → Except PyExc (List β)
  | [] => Except.ok []
  | a :: t => do
    let b ← f a
    let bs ← mapME f t
    pure (b :: bs)

/-- One virtual's entry (app.py lines 131-136). -/
structure VirtEntry where
  active : J
  streaming : J
  effect : J
  paused : J

/-- Fragment of get_ledfx_virtuals. -/
structure VirtFrag where
  connected : Bool
  virtuals : List (Str × VirtEntry)
  paused : J

/-- The unavailable fragment of get_ledfx_virtuals. -/
def defaultVirtFrag : VirtFrag := { connected := false, virtuals := [], paused := J.jb false }

/-- The per-virtual extraction of get_ledfx_virtuals (app.py lines 130-136):
    the effect type is taken only when the effect value is a dict. -/
def virtEntryOf (data : List (Str × J)) (q : Str × J) :
    Except PyExc (Str × VirtEntry) := do
  let vdata := q.2
  let activeV ← jGetE vdata (lit "active") (J.jb false)
  let streamingV ← jGetE vdata (lit "streaming") (J.jb false)
  let effProbe ← jGetE vdata (lit "effect") J.null
  let effectV ←
    if isObj effProbe then do
      let e2 ← jGetE vdata (lit "effect") (J.jobj [])
      jGetE e2 (lit "type") (J.js (lit "none"))
    else pure (J.js (lit "none"))
  pure (q.1, { active := activeV, streaming := streamingV, effect := effectV,
               paused := jObjGet data (lit "paused") (J.jb false) })

/-- get_ledfx_virtuals (app.py lines 117-140). -/
def get_ledfx_virtuals (p : RunOut) : Except PyExc VirtFrag :=
  catchThese curlCatch defaultVirtFrag (do
    let r ← runP p
    if r.rc = 0 then
      match r.jsonTop with
      | none => throw PyExc.jsonDecodeError
      | some data => do
        let virtuals ←
          if (jLook data (lit "virtuals")).isSome then do
            let vs ← jItemsE ((jLook data (lit "virtuals")).getD J.null)
            mapME (virtEntryOf data) vs
          else pure []
        pure { connected := true, virtuals := virtuals,
               paused := jObjGet data (lit "paused") (J.jb false) }
    else pure defaultVirtFrag)

/-- One device's entry (app.py lines 156-161). -/
structure DevEntry where
  online : J
  type : J
  config : J

/-- Fragment of get_ledfx_devices. -/
structure DevFrag where
  connected : Bool
  devices : List (Str × DevEntry)

/-- The unavailable fragment of get_ledfx_devices. -/
def defaultDevFrag : DevFrag := { connected := false, devices := [] }

/-- The per-device extraction of get_ledfx_devices (app.py lines 156-161). -/
def devEntryOf (q : Str × J) : Except PyExc (Str × DevEntry) := do
  let ddata := q.2
  let onlineV ← jGetE ddata (lit "online") (J.jb false)
  let typeV ← jGetE ddata (lit "type") (J.js (lit "unknown"))
  let configV ← jGetE ddata (lit "config") (J.jobj [])
  pure (q.1, { online := onlineV, type := typeV, config := configV })

/-- get_ledfx_devices (app.py lines 143-165). -/
def get_ledfx_devices (p : RunOut) : Except PyExc DevFrag :=
  catchThese curlCatch defaultDevFrag (do
    let r ← runP p
    if r.rc = 0 then
      match r.jsonTop with
      | none => throw PyExc.jsonDecodeError
      | some data => do
        let devices ←
          if (jLook data (lit "devices")).isSome then do
            let ds ← jItemsE ((jLook data (lit "devices")).getD J.null)
            mapME devEntryOf ds
          else pure []
        pure { connected := true, devices := devices }
    else pure defaultDevFrag)

/-- Fragment of get_ledfx_audio_device (app.py lines 226-241). -/
structure AudioDevFrag where
  configured_index : J
  configured_device : J
  active_index : J
  active_device : J
  available_devices : J

/-- Python `v is None` for a JSON value. -/
def pyIsNone : J → Bool
  | J.null => true
  | _ => false

/-- The unavailable fragment of get_ledfx_audio_device. -/
def defaultAudioDevFrag : AudioDevFrag :=
  { configured_index := J.null, configured_device := J.null, active_index := J.null,
    active_device := J.null, available_devices := J.jobj [] }

/-- get_ledfx_audio_device (app.py lines 192-241): two curl calls; the device
    map lookup keys are str() of the configured/active indices. -/
def get_ledfx_audio_device (p1 p2 : RunOut) : Except PyExc AudioDevFrag :=
  catchThese curlCatch defaultAudioDevFrag (do
    let r1 ← runP p1
    if r1.rc = 0 then
      match r1.jsonTop with
      | none => throw PyExc.jsonDecodeError
      | some devices_data => do
        let devices_map := jObjGet devices_data (lit "devices") (J.jobj [])
        let active_index := jObjGet devices_data (lit "active_device_index") J.null
        let r2 ← runP p2
        if r2.rc = 0 then
          match r2.jsonTop with
          | none => throw PyExc.jsonDecodeError
          | some config_data => do
            let audio_cfg := jObjGet config_data (lit "audio") (J.jobj [])
            let configured_index ← jGetE audio_cfg (lit "audio_device") J.null
            let device_name ← jGetE devices_map (pyStr configured_index)
              (J.js (lit "Unknown (index " ++ pyStr configured_index ++ lit ")"))
            let active_device ←
              if pyIsNone active_index then pure J.null
              else (jGetE devices_map (pyStr active_index)
                  (J.js (lit "Unknown (index " ++ pyStr active_index ++ lit ")")))
            pure { configured_index := configured_index, configured_device := device_name,
                   active_index := active_index, active_device := active_device,
                   available_devices := devices_map }
        else pure defaultAudioDevFrag
    else pure defaultAudioDevFrag)

/-- First occurrence split: str.split(c, 1) as (before, after). -/
def splitOnceChar (c : Char) : Str → Option (Str × Str)
  | [] => none
  | x :: t =>
    if x = c then some ([], t)
    else (splitOnceChar c t).map (fun p => (x :: p.1, p.2))

/-- The audio-routing fragment (app.py lines 246-252). -/
structure AudioFrag where
  pulse_available : Bool
  pulse_server : Option Str
  shairport_connected : Bool
  shairport_corked : Bool
  active_streams : Nat
  ledfx_streaming_flag : Bool

/-- The initial audio fragment (every field at its default). -/
def initAudioFrag : AudioFrag :=
  { pulse_available := false, pulse_server := none, shairport_connected := false,
    shairport_corked := false, active_streams := 0, ledfx_streaming_flag := false }

/-- The pactl-info scan (app.py lines 263-267): the first line containing
    'Server String' is split on its first colon; a marker line without a colon
    raises IndexError, which the surrounding except tuple does NOT catch. -/
def scanServer (st : AudioFrag) : List Str → Except PyExc AudioFrag
  | [] => Except.ok st
  | line :: rest =>
    if hasSub line (lit "Server String") then
      match splitOnceChar ':' line with
      | some q => Except.ok { st with pulse_server := some (pyStrip q.2),
                                      pulse_available := true }
      | none => Except.error PyExc.indexError
    else scanServer st rest

/-- The sink-inputs scan (app.py lines 287-294): substring heuristics for the
    Shairport connection and its cork state; absence of both markers leaves the
    cork state at its prior value. -/
def corkScan (st : AudioFrag) (out3 : Str) : AudioFrag :=
  if hasSub out3 (lit "Shairport Sync") then
    { st with shairport_connected := true,
              shairport_corked :=
                if hasSub out3 (lit "Corked: yes") then true
                else if hasSub out3 (lit "Corked: no") then false
                else st.shairport_corked }
  else st

/-- except (subprocess.TimeoutExpired, subprocess.SubprocessError) — the tuple
    of get_audio_status's first try block; FileNotFoundError and IndexError
    are not in it. -/
def pactlCatch : PyExc → Bool
  | PyExc.timeoutExpired => true
  | PyExc.subprocessError => true
  | _ => false

/-- Streaming-flag loop of get_audio_status (app.py lines 318-323), with the
    dynamic .get on each virtual made fallible. -/
def anyStreamingE : List (Str × J) → Except PyExc Bool
  | [] => Except.ok false
  | q :: t => do
    let s ← jGetE q.2 (lit "streaming") (J.jb false)
    if pyTruthy s then pure true else anyStreamingE t

/-- get_audio_status (app.py lines 244-327), with its two try blocks
    hand-compiled: a caught exception keeps the fragment as mutated so far;
    an uncaught one (missing binary, IndexError from a colon-less
    'Server String' line, AttributeError from an ill-shaped payload)
    propagates.  This is the first try block (app.py lines 254-296). -/
def audioBlock1 (p1 p2 p3 : RunOut) : Except PyExc AudioFrag :=
  match p1 with
  | Except.error e =>
    if pactlCatch (probeErrToPy e) then pure initAudioFrag
    else throw (probeErrToPy e)
  | Except.ok r1 =>
    if r1.rc = 0 then do
      let st ← scanServer initAudioFrag (splitOnChar '\n' r1.out)
      match p2 with
      | Except.error e =>
        if pactlCatch (probeErrToPy e) then pure st else throw (probeErrToPy e)
      | Except.ok r2 =>
        if r2.rc = 0 then
          let st := { st with active_streams :=
            ((splitOnChar '\n' r2.out).filter (fun l => !(pyStrip l).isEmpty)).length }
          match p3 with
          | Except.error e =>
            if pactlCatch (probeErrToPy e) then pure st else throw (probeErrToPy e)
          | Except.ok r3 => pure (corkScan st r3.out)
        else pure st
    else pure initAudioFrag

/-- The second try block of get_audio_status (app.py lines 309-325): the LedFX
    streaming flag from /api/virtuals. -/
def audioBlock2 (st1 : AudioFrag) (p4 : RunOut) : Except PyExc AudioFrag :=
  match p4 with
  | Except.error e =>
    if curlCatch (probeErrToPy e) then pure st1 else throw (probeErrToPy e)
  | Except.ok r4 =>
    if r4.rc = 0 then
      match r4.jsonTop with
      | none => pure st1
      | some data =>
        if (jLook data (lit "virtuals")).isSome then do
          let items ← jItemsE ((jLook data (lit "virtuals")).getD J.null)
          let flag ← anyStreamingE items
          pure { st1 with ledfx_streaming_flag := flag }
        else pure st1
    else pure st1

/-- get_audio_status: the first block then the second. -/
def get_audio_status (p1 p2 p3 p4 : RunOut) : Except PyExc AudioFrag := do
  let st1 ← audioBlock1 p1 p2 p3
  audioBlock2 st1 p4

/-- Diagnostic summary fragment (app.py lines 730-735). -/
structure DiagFrag where
  warnings : J
  errors : J
  warning_messages : J
  error_messages : J

/-- The zero diagnostics fragment. -/
def zeroDiagFrag : DiagFrag :=
  { warnings := J.jn 0, errors := J.jn 0,
    warning_messages := J.jarr [], error_messages := J.jarr [] }

/-- Accumulator of the [WARN]/[ERROR] text fallback (app.py lines 715-725). -/
structure DiagAcc where
  w : Int
  e : Int
  wm : List Str
  em : List Str

/-- One line of the text fallback: count the marker, and collect the text
    after it when nonempty and not yet collected. -/
def diagScanLine (acc : DiagAcc) (line : Str) : DiagAcc :=
  if hasSub line (lit "[WARN]") then
    let w := acc.w + 1
    let msg := match splitOnceSub line (lit "[WARN]") with
      | some q => pyStrip q.2
      | none => []
    if !msg.isEmpty && !acc.wm.contains msg then { acc with w := w, wm := acc.wm ++ [msg] }
    else { acc with w := w }
  else if hasSub line (lit "[ERROR]") then
    let e := acc.e + 1
    let msg := match splitOnceSub line (lit "[ERROR]") with
      | some q => pyStrip q.2
      | none => []
    if !msg.isEmpty && !acc.em.contains msg then { acc with e := e, em := acc.em ++ [msg] }
    else { acc with e := e }
  else acc

/-- get_diagnostic_warnings (app.py lines 686-735): JSON mode (messages capped
    at five) with fallback text scanning on JSON failure; all subprocess
    failures are caught, a TypeError from slicing a non-list propagates (and is
    then caught by the aggregator's wrapper). -/
def get_diagnostic_warnings (p : RunOut) : Except PyExc DiagFrag :=
  match p with
  | Except.error _ => Except.ok zeroDiagFrag
  | Except.ok r =>
    if r.rc = 0 then
      match r.jsonTop with
      | some data => do
        let wmsg ← pySlice5E (jObjGet data (lit "warning_messages") (J.jarr []))
        let emsg ← pySlice5E (jObjGet data (lit "error_messages") (J.jarr []))
        pure { warnings := jObjGet data (lit "warnings") (J.jn 0),
               errors := jObjGet data (lit "errors") (J.jn 0),
               warning_messages := wmsg, error_messages := emsg }
      | none =>
        let acc := (splitOnChar '\n' r.out).foldl diagScanLine ⟨0, 0, [], []⟩
        Except.ok { warnings := J.jn acc.w, errors := J.jn acc.e,
                    warning_messages := J.jarr (acc.wm.map J.js),
                    error_messages := J.jarr (acc.em.map J.js) }
    else Except.ok zeroDiagFrag

/-- One container's entry in the snapshot (app.py lines 759-763). -/
structure ContainerEntry where
  running : Bool
  version : J
  container_name : Str

/-- dict[k] = v on an insertion-ordered association list. -/
def alAssign (m : List (Str × ContainerEntry)) (k : Str) (v : ContainerEntry) :
    List (Str × ContainerEntry) :=
  if m.any (fun p => p.1 = k) then m.map (fun p => if p.1 = k then (p.1, v) else p)
  else m ++ [(k, v)]

/-- str.replace for a single character. -/
def replaceChar (a b : Char) (s : Str) : Str := s.map (fun c => if c = a then b else c)

/-- The external calls one /api/status request makes. -/
structure StatusEnv where
  dockerPs : RunOut
  perContainer : Str → ContainerEnv
  diag : RunOut
  airplay : AirplayEnv
  ledfxInfo : RunOut
  audioDevices : RunOut
  audioConfig : RunOut
  virtuals : RunOut
  devices : RunOut
  pactl1 : RunOut
  pactl2 : RunOut
  pactl3 : RunOut
  audioVirtuals : RunOut

/-- The containers section of /api/status (app.py lines 741-778): names from
    docker ps (fallback to the known containers when the query raises), each
    checked with check_container_status; every failure in this section is
    caught.  airglow-web is skipped; keys replace '-' with '_'. -/
def containerBlock (env : StatusEnv) : List (Str × ContainerEntry) :=
  match env.dockerPs with
  | Except.ok r =>
    if r.rc = 0 then
      let names := ((splitOnChar '\n' r.out).map pyStrip).filter (fun n => !n.isEmpty)
      names.foldl (fun acc name =>
        if name ≠ lit "airglow-web" then
          let st := check_container_status name (env.perContainer name)
          alAssign acc (replaceChar '-' '_' name)
            { running := st.running, version := st.version, container_name := name }
        else acc) []
    else []
  | Except.error _ =>
    [(lit "avahi", lit "avahi"), (lit "ledfx", lit "ledfx"),
     (lit "shairport_sync", lit "shairport-sync")].foldl (fun acc kv =>
      let st := check_container_status kv.2 (env.perContainer kv.2)
      alAssign acc kv.1
        { running := st.running, version := st.version, container_name := kv.2 }) []

/-- The /api/status snapshot (app.py lines 799-808); the Python key 'audio' is
    rendered here as audio_status. -/
structure StatusSnapshot where
  containers : List (Str × ContainerEntry)
  ledfx : InfoFrag
  ledfx_audio_device : AudioDevFrag
  virtuals : VirtFrag
  devices : DevFrag
  audio_status : AudioFrag
  airplay : Option AirplayStatus
  diagnostics : DiagFrag

/-- The status() endpoint body (app.py lines 738-809): the containers section,
    diagnostics and airplay adapters are each wrapped in try/except and cannot
    abort the request, but the five LedFX/audio adapters are invoked bare, so
    an exception escaping one of them propagates out of the collection. -/
def statusE (env : StatusEnv) : Except PyExc StatusSnapshot := do
  let containers := containerBlock env
  let diagnostics :=
    match get_diagnostic_warnings env.diag with
    | Except.ok d => d
    | Except.error _ => zeroDiagFrag
  let airplay := some (get_airplay_status env.airplay)
  let ledfx ← get_ledfx_info env.ledfxInfo
  let lad ← get_ledfx_audio_device env.audioDevices env.audioConfig
  let virts ← get_ledfx_virtuals env.virtuals
  let devs ← get_ledfx_devices env.devices
  let aud ← get_audio_status env.pactl1 env.pactl2 env.pactl3 env.audioVirtuals
  pure { containers := containers, ledfx := ledfx, ledfx_audio_device := lad,
         virtuals := virts, devices := devs, audio_status := aud,
         airplay := airplay, diagnostics := diagnostics }

/- ---------------------------------------------------------------------
   Totality of the status adapters under wellformed payloads (for C1)
   --------------------------------------------------------------------- -/

/-- The probe does not fail with a missing binary (FileNotFoundError). -/
def notFnf (p : RunOut) : Prop := p ≠ Except.error ProbeErr.fileNotFoundError

/-- A JSON object all of whose values are objects. -/
def objValues : J → Bool
  | J.jobj kvs => kvs.all (fun q => isObj q.2)
  | _ => false

/-- Wellformedness of a /api/virtuals payload: the 'virtuals' member, when
    present, is an object of objects (the shape the code dereferences). -/
def wfVirtPayload (p : RunOut) : Bool :=
  match p with
  | Except.error _ => true
  | Except.ok r =>
    match r.jsonTop with
    | none => true
    | some data =>
      match jLook data (lit "virtuals") with
      | none => true
      | some v => objValues v

/-- Wellformedness of a /api/devices payload. -/
def wfDevPayload (p : RunOut) : Bool :=
  match p with
  | Except.error _ => true
  | Except.ok r =>
    match r.jsonTop with
    | none => true
    | some data =>
      match jLook data (lit "devices") with
      | none => true
      | some v => objValues v

/-- Wellformedness of the audio-device payloads: the devices map and the audio
    config section are objects (dict.get is called on both). -/
def wfAudioDevPayloads (p1 p2 : RunOut) : Bool :=
  (match p1 with
   | Except.error _ => true
   | Except.ok r1 =>
     match r1.jsonTop with
     | none => true
     | some dd => isObj (jObjGet dd (lit "devices") (J.jobj []))) &&
  (match p2 with
   | Except.error _ => true
   | Except.ok r2 =>
     match r2.jsonTop with
     | none => true
     | some cd => isObj (jObjGet cd (lit "audio") (J.jobj [])))

/-- Wellformedness of the pactl info output: every 'Server String' line has a
    colon (else line.split(':', 1)[1] raises IndexError). -/
def wfServerLines (p : RunOut) : Bool :=
  match p with
  | Except.error _ => true
  | Except.ok r =>
    (splitOnChar '\n' r.out).all
      (fun line => !hasSub line (lit "Server String") || (splitOnceChar ':' line).isSome)

theorem isObj_exists (v : J) (h : isObj v = true) : ∃ kvs, v = J.jobj kvs := by
  cases v with
  | jobj kvs => exact ⟨kvs, rfl⟩
  | null => simp [isObj] at h
  | jb b => simp [isObj] at h
  | jn i => simp [isObj] at h
  | js s => simp [isObj] at h
  | jarr xs => simp [isObj] at h

theorem mapME_ok (f : α → Except PyExc β) (vs : List α)
    (h : ∀ a ∈ vs, ∃ b, f a = Except.ok b) : ∃ l, mapME f vs = Except.ok l := by
  induction vs with
  | nil => exact ⟨[], rfl⟩
  | cons a t ih =>
    obtain ⟨b, hb⟩ := h a (by simp)
    obtain ⟨l, hl⟩ := ih (fun x hx => h x (by simp [hx]))
    refine ⟨b :: l, ?_⟩
    rw [mapME, hb]
    dsimp only [Bind.bind, Except.bind]
    rw [hl]
    rfl

theorem scanServer_ok (lines : List Str)
    (h : lines.all
      (fun line => !hasSub line (lit "Server String") || (splitOnceChar ':' line).isSome)
      = true) :
    ∀ st : AudioFrag, ∃ st', scanServer st lines = Except.ok st' := by
  induction lines with
  | nil => intro st; exact ⟨st, rfl⟩
  | cons line rest ih =>
    rw [List.all_cons, Bool.and_eq_true] at h
    obtain ⟨hline, hrest⟩ := h
    intro st
    rw [scanServer]
    by_cases hm : hasSub line (lit "Server String") = true
    · rw [if_pos hm]
      rw [hm] at hline
      simp only [Bool.not_true, Bool.false_or] at hline
      obtain ⟨q, hq⟩ := Option.isSome_iff_exists.mp hline
      rw [hq]
      exact ⟨_, rfl⟩
    · rw [if_neg hm]
      exact ih hrest st

theorem anyStreamingE_ok (items : List (Str × J))
    (h : ∀ q ∈ items, isObj q.2 = true) :
    ∃ b, anyStreamingE items = Except.ok b := by
  induction items with
  | nil => exact ⟨false, rfl⟩
  | cons q t ih =>
    obtain ⟨kvs, hkvs⟩ := isObj_exists _ (h q (by simp))
    obtain ⟨b, hb⟩ := ih (fun x hx => h x (by simp [hx]))
    rw [anyStreamingE, hkvs]
    dsimp only [jGetE, Bind.bind, Except.bind]
    by_cases ht : pyTruthy (jObjGet kvs (lit "streaming") (J.jb false)) = true
    · rw [if_pos ht]
      exact ⟨true, rfl⟩
    · rw [if_neg ht]
      exact ⟨b, hb⟩

theorem info_ok (p : RunOut) (h : notFnf p) :
    ∃ v, get_ledfx_info p = Except.ok v ∧
      (∀ e, p = Except.error e → v = defaultInfoFrag) := by
  cases p with
  | error e =>
    cases e with
    | fileNotFoundError => exact absurd rfl h
    | timeoutExpired => exact ⟨defaultInfoFrag, rfl, fun _ _ => rfl⟩
    | subprocessError => exact ⟨defaultInfoFrag, rfl, fun _ _ => rfl⟩
  | ok r =>
    by_cases hrc : r.rc = 0
    · cases hj : r.jsonTop with
      | none =>
        have hq : get_ledfx_info (Except.ok r) = Except.ok defaultInfoFrag := by
          rw [get_ledfx_info]
          dsimp only [runP, Bind.bind, Except.bind]
          rw [if_pos hrc, hj]
          rfl
        exact ⟨_, hq, fun e he => Except.noConfusion he⟩
      | some info =>
        have hq : get_ledfx_info (Except.ok r) = Except.ok
            { connected := true,
              version := jObjGet info (lit "version") (J.js (lit "unknown")),
              data := some info } := by
          rw [get_ledfx_info]
          dsimp only [runP, Bind.bind, Except.bind]
          rw [if_pos hrc, hj]
          rfl
        exact ⟨_, hq, fun e he => Except.noConfusion he⟩
    · have hq : get_ledfx_info (Except.ok r) = Except.ok defaultInfoFrag := by
        rw [get_ledfx_info]
        dsimp only [runP, Bind.bind, Except.bind]
        rw [if_neg hrc]
        rfl
      exact ⟨_, hq, fun e he => Except.noConfusion he⟩

theorem virtEntryOf_ok (data : List (Str × J)) (q : Str × J) (h : isObj q.2 = true) :
    ∃ u, virtEntryOf data q = Except.ok u := by
  obtain ⟨k, v⟩ := q
  obtain ⟨kvs, hkvs⟩ := isObj_exists v h
  subst hkvs
  rw [virtEntryOf]
  dsimp only [jGetE, Bind.bind, Except.bind]
  by_cases he : isObj (jObjGet kvs (lit "effect") J.null) = true
  · rw [if_pos he]
    have hw : ∃ w, jObjGet kvs (lit "effect") (J.jobj []) = J.jobj w := by
      rw [jObjGet] at he ⊢
      cases hl : jLook kvs (lit "effect") with
      | none => rw [hl] at he; simp [isObj] at he
      | some w =>
        rw [hl] at he
        simp only [Option.getD_some] at he ⊢
        exact isObj_exists w he
    obtain ⟨w, hw⟩ := hw
    rw [hw]
    dsimp only [jGetE, Bind.bind, Except.bind]
    exact ⟨_, rfl⟩
  · rw [if_neg he]
    exact ⟨_, rfl⟩

theorem devEntryOf_ok (q : Str × J) (h : isObj q.2 = true) :
    ∃ u, devEntryOf q = Except.ok u := by
  obtain ⟨k, v⟩ := q
  obtain ⟨kvs, hkvs⟩ := isObj_exists v h
  subst hkvs
  rw [devEntryOf]
  dsimp only [jGetE, Bind.bind, Except.bind]
  exact ⟨_, rfl⟩

theorem objValues_exists (v : J) (h : objValues v = true) :
    ∃ kvs, v = J.jobj kvs ∧ ∀ q ∈ kvs, isObj q.2 = true := by
  cases v with
  | jobj kvs =>
    refine ⟨kvs, rfl, ?_⟩
    rw [objValues] at h
    exact fun q hq => List.all_eq_true.mp h q hq
  | null => simp [objValues] at h
  | jb b => simp [objValues] at h
  | jn i => simp [objValues] at h
  | js s => simp [objValues] at h
  | jarr xs => simp [objValues] at h

theorem virt_ok (p : RunOut) (hn : notFnf p) (hwf : wfVirtPayload p = true) :
    ∃ v, get_ledfx_virtuals p = Except.ok v ∧
      (∀ e, p = Except.error e → v = defaultVirtFrag) := by
  cases p with
  | error e =>
    cases e with
    | fileNotFoundError => exact absurd rfl hn
    | timeoutExpired => exact ⟨defaultVirtFrag, rfl, fun _ _ => rfl⟩
    | subprocessError => exact ⟨defaultVirtFrag, rfl, fun _ _ => rfl⟩
  | ok r =>
    by_cases hrc : r.rc = 0
    · cases hj : r.jsonTop with
      | none =>
        have hq : get_ledfx_virtuals (Except.ok r) = Except.ok defaultVirtFrag := by
          rw [get_ledfx_virtuals]
          dsimp only [runP, Bind.bind, Except.bind]
          rw [if_pos hrc, hj]
          rfl
        exact ⟨_, hq, fun e he => Except.noConfusion he⟩
      | some data =>
        by_cases hv : (jLook data (lit "virtuals")).isSome = true
        · obtain ⟨vv, hvv⟩ := Option.isSome_iff_exists.mp hv
          have hov : objValues vv = true := by
            dsimp only [wfVirtPayload] at hwf
            rw [hj] at hwf
            dsimp only at hwf
            rw [hvv] at hwf
            exact hwf
          obtain ⟨kvs, hkvs, hall⟩ := objValues_exists vv hov
          obtain ⟨l, hl⟩ := mapME_ok (virtEntryOf data) kvs
            (fun a ha => virtEntryOf_ok data a (hall a ha))
          have hq : get_ledfx_virtuals (Except.ok r) = Except.ok
              { connected := true, virtuals := l,
                paused := jObjGet data (lit "paused") (J.jb false) } := by
            rw [get_ledfx_virtuals]
            dsimp only [runP, Bind.bind, Except.bind]
            rw [if_pos hrc, hj]
            dsimp only
            rw [hvv, hkvs]
            simp only [Option.isSome_some, Option.getD_some, eq_self_iff_true, if_true]
            dsimp only [jItemsE, Bind.bind, Except.bind]
            rw [hl]
            rfl
          exact ⟨_, hq, fun e he => Except.noConfusion he⟩
        · have hq : get_ledfx_virtuals (Except.ok r) = Except.ok
              { connected := true, virtuals := [],
                paused := jObjGet data (lit "paused") (J.jb false) } := by
            rw [get_ledfx_virtuals]
            dsimp only [runP, Bind.bind, Except.bind]
            rw [if_pos hrc, hj]
            dsimp only
            rw [if_neg hv]
            rfl
          exact ⟨_, hq, fun e he => Except.noConfusion he⟩
    · have hq : get_ledfx_virtuals (Except.ok r) = Except.ok defaultVirtFrag := by
        rw [get_ledfx_virtuals]
        dsimp only [runP, Bind.bind, Except.bind]
        rw [if_neg hrc]
        rfl
      exact ⟨_, hq, fun e he => Except.noConfusion he⟩

theorem dev_ok (p : RunOut) (hn : notFnf p) (hwf : wfDevPayload p = true) :
    ∃ v, get_ledfx_devices p = Except.ok v ∧
      (∀ e, p = Except.error e → v = defaultDevFrag) := by
  cases p with
  | error e =>
    cases e with
    | fileNotFoundError => exact absurd rfl hn
    | timeoutExpired => exact ⟨defaultDevFrag, rfl, fun _ _ => rfl⟩
    | subprocessError => exact ⟨defaultDevFrag, rfl, fun _ _ => rfl⟩
  | ok r =>
    by_cases hrc : r.rc = 0
    · cases hj : r.jsonTop with
      | none =>
        have hq : get_ledfx_devices (Except.ok r) = Except.ok defaultDevFrag := by
          rw [get_ledfx_devices]
          dsimp only [runP, Bind.bind, Except.bind]
          rw [if_pos hrc, hj]
          rfl
        exact ⟨_, hq, fun e he => Except.noConfusion he⟩
      | some data =>
        by_cases hv : (jLook data (lit "devices")).isSome = true
        · obtain ⟨vv, hvv⟩ := Option.isSome_iff_exists.mp hv
          have hov : objValues vv = true := by
            dsimp only [wfDevPayload] at hwf
            rw [hj] at hwf
            dsimp only at hwf
            rw [hvv] at hwf
            exact hwf
          obtain ⟨kvs, hkvs, hall⟩ := objValues_exists vv hov
          obtain ⟨l, hl⟩ := mapME_ok devEntryOf kvs
            (fun a ha => devEntryOf_ok a (hall a ha))
          have hq : get_ledfx_devices (Except.ok r) = Except.ok
              { connected := true, devices := l } := by
            rw [get_ledfx_devices]
            dsimp only [runP, Bind.bind, Except.bind]
            rw [if_pos hrc, hj]
            dsimp only
            rw [hvv, hkvs]
            simp only [Option.isSome_some, Option.getD_some, eq_self_iff_true, if_true]
            dsimp only [jItemsE, Bind.bind, Except.bind]
            rw [hl]
            rfl
          exact ⟨_, hq, fun e he => Except.noConfusion he⟩
        · have hq : get_ledfx_devices (Except.ok r) = Except.ok
              { connected := true, devices := [] } := by
            rw [get_ledfx_devices]
            dsimp only [runP, Bind.bind, Except.bind]
            rw [if_pos hrc, hj]
            dsimp only
            rw [if_neg hv]
            rfl
          exact ⟨_, hq, fun e he => Except.noConfusion he⟩
    · have hq : get_ledfx_devices (Except.ok r) = Except.ok defaultDevFrag := by
        rw [get_ledfx_devices]
        dsimp only [runP, Bind.bind, Except.bind]
        rw [if_neg hrc]
        rfl
      exact ⟨_, hq, fun e he => Except.noConfusion he⟩

theorem audioDev_ok (p1 p2 : RunOut) (h1 : notFnf p1) (h2 : notFnf p2)
    (hwf : wfAudioDevPayloads p1 p2 = true) :
    ∃ v, get_ledfx_audio_device p1 p2 = Except.ok v ∧
      (∀ e, p1 = Except.error e → v = defaultAudioDevFrag) := by
  cases p1 with
  | error e =>
    cases e with
    | fileNotFoundError => exact absurd rfl h1
    | timeoutExpired => exact ⟨defaultAudioDevFrag, rfl, fun _ _ => rfl⟩
    | subprocessError => exact ⟨defaultAudioDevFrag, rfl, fun _ _ => rfl⟩
  | ok r1 =>
    by_cases hrc1 : r1.rc = 0
    · cases hj1 : r1.jsonTop with
      | none =>
        have hq : get_ledfx_audio_device (Except.ok r1) p2 =
            Except.ok defaultAudioDevFrag := by
          rw [get_ledfx_audio_device]
          dsimp only [runP, Bind.bind, Except.bind]
          rw [if_pos hrc1, hj1]
          rfl
        exact ⟨_, hq, fun e he => Except.noConfusion he⟩
      | some dd =>
        dsimp only [wfAudioDevPayloads] at hwf
        rw [hj1] at hwf
        dsimp only at hwf
        obtain ⟨hwd, hwa⟩ := (Bool.and_eq_true _ _).mp hwf
        obtain ⟨dmk, hdm⟩ := isObj_exists _ hwd
        cases p2 with
        | error e2 =>
          cases e2 with
          | fileNotFoundError => exact absurd rfl h2
          | timeoutExpired =>
            have hq : get_ledfx_audio_device (Except.ok r1)
                (Except.error ProbeErr.timeoutExpired) =
                Except.ok defaultAudioDevFrag := by
              rw [get_ledfx_audio_device]
              dsimp only [runP, Bind.bind, Except.bind]
              rw [if_pos hrc1, hj1]
              rfl
            exact ⟨_, hq, fun e he => Except.noConfusion he⟩
          | subprocessError =>
            have hq : get_ledfx_audio_device (Except.ok r1)
                (Except.error ProbeErr.subprocessError) =
                Except.ok defaultAudioDevFrag := by
              rw [get_ledfx_audio_device]
              dsimp only [runP, Bind.bind, Except.bind]
              rw [if_pos hrc1, hj1]
              rfl
            exact ⟨_, hq, fun e he => Except.noConfusion he⟩
        | ok r2 =>
          by_cases hrc2 : r2.rc = 0
          · cases hj2 : r2.jsonTop with
            | none =>
              have hq : get_ledfx_audio_device (Except.ok r1) (Except.ok r2) =
                  Except.ok defaultAudioDevFrag := by
                rw [get_ledfx_audio_device]
                dsimp only [runP, Bind.bind, Except.bind]
                rw [if_pos hrc1, hj1]
                dsimp only
                rw [if_pos hrc2, hj2]
                rfl
              exact ⟨_, hq, fun e he => Except.noConfusion he⟩
            | some cd =>
              dsimp only at hwa
              rw [hj2] at hwa
              dsimp only at hwa
              obtain ⟨ack, hac⟩ := isObj_exists _ hwa
              by_cases hni : pyIsNone (jObjGet dd (lit "active_device_index") J.null) = true
              · have hq : get_ledfx_audio_device (Except.ok r1) (Except.ok r2) = Except.ok
                    { configured_index := jObjGet ack (lit "audio_device") J.null,
                      configured_device :=
                        jObjGet dmk (pyStr (jObjGet ack (lit "audio_device") J.null))
                          (J.js (lit "Unknown (index " ++
                            pyStr (jObjGet ack (lit "audio_device") J.null) ++ lit ")")),
                      active_index := jObjGet dd (lit "active_device_index") J.null,
                      active_device := J.null,
                      available_devices := J.jobj dmk } := by
                  rw [get_ledfx_audio_device]
                  dsimp only [runP, Bind.bind, Except.bind]
                  rw [if_pos hrc1, hj1]
                  dsimp only
                  rw [if_pos hrc2, hj2]
                  dsimp only
                  rw [hdm, hac]
                  dsimp only [jGetE, Bind.bind, Except.bind]
                  rw [if_pos hni]
                  rfl
                exact ⟨_, hq, fun e he => Except.noConfusion he⟩
              · have hq : get_ledfx_audio_device (Except.ok r1) (Except.ok r2) = Except.ok
                    { configured_index := jObjGet ack (lit "audio_device") J.null,
                      configured_device :=
                        jObjGet dmk (pyStr (jObjGet ack (lit "audio_device") J.null))
                          (J.js (lit "Unknown (index " ++
                            pyStr (jObjGet ack (lit "audio_device") J.null) ++ lit ")")),
                      active_index := jObjGet dd (lit "active_device_index") J.null,
                      active_device :=
                        jObjGet dmk (pyStr (jObjGet dd (lit "active_device_index") J.null))
                          (J.js (lit "Unknown (index " ++
                            pyStr (jObjGet dd (lit "active_device_index") J.null) ++ lit ")")),
                      available_devices := J.jobj dmk } := by
                  rw [get_ledfx_audio_device]
                  dsimp only [runP, Bind.bind, Except.bind]
                  rw [if_pos hrc1, hj1]
                  dsimp only
                  rw [if_pos hrc2, hj2]
                  dsimp only
                  rw [hdm, hac]
                  dsimp only [jGetE, Bind.bind, Except.bind]
                  rw [if_neg hni]
                  rfl
                exact ⟨_, hq, fun e he => Except.noConfusion he⟩
          · have hq : get_ledfx_audio_device (Except.ok r1) (Except.ok r2) =
                Except.ok defaultAudioDevFrag := by
              rw [get_ledfx_audio_device]
              dsimp only [runP, Bind.bind, Except.bind]
              rw [if_pos hrc1, hj1]
              dsimp only
              rw [if_neg hrc2]
              rfl
            exact ⟨_, hq, fun e he => Except.noConfusion he⟩
    · have hq : get_ledfx_audio_device (Except.ok r1) p2 =
          Except.ok defaultAudioDevFrag := by
        rw [get_ledfx_audio_device]
        dsimp only [runP, Bind.bind, Except.bind]
        rw [if_neg hrc1]
        rfl
      exact ⟨_, hq, fun e he => Except.noConfusion he⟩

theorem audioBlock1_ok (p1 p2 p3 : RunOut) (h1 : notFnf p1) (h2 : notFnf p2)
    (h3 : notFnf p3) (hwf : wfServerLines p1 = true) :
    ∃ st, audioBlock1 p1 p2 p3 = Except.ok st ∧
      (∀ e, p1 = Except.error e → st = initAudioFrag) := by
  cases p1 with
  | error e =>
    cases e with
    | fileNotFoundError => exact absurd rfl h1
    | timeoutExpired => exact ⟨initAudioFrag, rfl, fun _ _ => rfl⟩
    | subprocessError => exact ⟨initAudioFrag, rfl, fun _ _ => rfl⟩
  | ok r1 =>
    dsimp only [wfServerLines] at hwf
    by_cases hrc1 : r1.rc = 0
    · obtain ⟨st, hst⟩ := scanServer_ok (splitOnChar '\n' r1.out) hwf initAudioFrag
      cases p2 with
      | error e2 =>
        cases e2 with
        | fileNotFoundError => exact absurd rfl h2
        | timeoutExpired =>
          have hq : audioBlock1 (Except.ok r1) (Except.error ProbeErr.timeoutExpired) p3 =
              Except.ok st := by
            dsimp only [audioBlock1]
            rw [if_pos hrc1, hst]
            rfl
          exact ⟨_, hq, fun e he => Except.noConfusion he⟩
        | subprocessError =>
          have hq : audioBlock1 (Except.ok r1) (Except.error ProbeErr.subprocessError) p3 =
              Except.ok st := by
            dsimp only [audioBlock1]
            rw [if_pos hrc1, hst]
            rfl
          exact ⟨_, hq, fun e he => Except.noConfusion he⟩
      | ok r2 =>
        by_cases hrc2 : r2.rc = 0
        · cases p3 with
          | error e3 =>
            cases e3 with
            | fileNotFoundError => exact absurd rfl h3
            | timeoutExpired =>
              have hq : audioBlock1 (Except.ok r1) (Except.ok r2)
                  (Except.error ProbeErr.timeoutExpired) = Except.ok
                  { st with active_streams :=
                    ((splitOnChar '\n' r2.out).filter
                      (fun l => !(pyStrip l).isEmpty)).length } := by
                dsimp only [audioBlock1]
                rw [if_pos hrc1, hst]
                dsimp only [Bind.bind, Except.bind]
                rw [if_pos hrc2]
                rfl
              exact ⟨_, hq, fun e he => Except.noConfusion he⟩
            | subprocessError =>
              have hq : audioBlock1 (Except.ok r1) (Except.ok r2)
                  (Except.error ProbeErr.subprocessError) = Except.ok
                  { st with active_streams :=
                    ((splitOnChar '\n' r2.out).filter
                      (fun l => !(pyStrip l).isEmpty)).length } := by
                dsimp only [audioBlock1]
                rw [if_pos hrc1, hst]
                dsimp only [Bind.bind, Except.bind]
                rw [if_pos hrc2]
                rfl
              exact ⟨_, hq, fun e he => Except.noConfusion he⟩
          | ok r3 =>
            have hq : audioBlock1 (Except.ok r1) (Except.ok r2) (Except.ok r3) = Except.ok
                (corkScan { st with active_streams :=
                  ((splitOnChar '\n' r2.out).filter
                    (fun l => !(pyStrip l).isEmpty)).length } r3.out) := by
              dsimp only [audioBlock1]
              rw [if_pos hrc1, hst]
              dsimp only [Bind.bind, Except.bind]
              rw [if_pos hrc2]
              rfl
            exact ⟨_, hq, fun e he => Except.noConfusion he⟩
        · have hq : audioBlock1 (Except.ok r1) (Except.ok r2) p3 = Except.ok st := by
            dsimp only [audioBlock1]
            rw [if_pos hrc1, hst]
            dsimp only [Bind.bind, Except.bind]
            rw [if_neg hrc2]
            rfl
          exact ⟨_, hq, fun e he => Except.noConfusion he⟩
    · have hq : audioBlock1 (Except.ok r1) p2 p3 = Except.ok initAudioFrag := by
        dsimp only [audioBlock1]
        rw [if_neg hrc1]
        rfl
      exact ⟨_, hq, fun e he => Except.noConfusion he⟩

theorem audioBlock2_ok (st1 : AudioFrag) (p4 : RunOut) (h4 : notFnf p4)
    (hwf : wfVirtPayload p4 = true) :
    ∃ st, audioBlock2 st1 p4 = Except.ok st ∧
      (∀ e, p4 = Except.error e → st = st1) := by
  cases p4 with
  | error e =>
    cases e with
    | fileNotFoundError => exact absurd rfl h4
    | timeoutExpired => exact ⟨st1, rfl, fun _ _ => rfl⟩
    | subprocessError => exact ⟨st1, rfl, fun _ _ => rfl⟩
  | ok r4 =>
    by_cases hrc4 : r4.rc = 0
    · cases hj4 : r4.jsonTop with
      | none =>
        have hq : audioBlock2 st1 (Except.ok r4) = Except.ok st1 := by
          dsimp only [audioBlock2]
          rw [if_pos hrc4, hj4]
          rfl
        exact ⟨_, hq, fun e he => Except.noConfusion he⟩
      | some data =>
        by_cases hv : (jLook data (lit "virtuals")).isSome = true
        · obtain ⟨vv, hvv⟩ := Option.isSome_iff_exists.mp hv
          have hov : objValues vv = true := by
            dsimp only [wfVirtPayload] at hwf
            rw [hj4] at hwf
            dsimp only at hwf
            rw [hvv] at hwf
            exact hwf
          obtain ⟨kvs, hkvs, hall⟩ := objValues_exists vv hov
          obtain ⟨b, hb⟩ := anyStreamingE_ok kvs hall
          have hq : audioBlock2 st1 (Except.ok r4) = Except.ok
              { st1 with ledfx_streaming_flag := b } := by
            dsimp only [audioBlock2]
            rw [if_pos hrc4, hj4]
            dsimp only
            rw [hvv, hkvs]
            simp only [Option.isSome_some, Option.getD_some, eq_self_iff_true, if_true]
            dsimp only [jItemsE, Bind.bind, Except.bind]
            rw [hb]
            rfl
          exact ⟨_, hq, fun e he => Except.noConfusion he⟩
        · have hq : audioBlock2 st1 (Except.ok r4) = Except.ok st1 := by
            dsimp only [audioBlock2]
            rw [if_pos hrc4, hj4]
            dsimp only
            rw [if_neg hv]
            rfl
          exact ⟨_, hq, fun e he => Except.noConfusion he⟩
    · have hq : audioBlock2 st1 (Except.ok r4) = Except.ok st1 := by
        dsimp only [audioBlock2]
        rw [if_neg hrc4]
        rfl
      exact ⟨_, hq, fun e he => Except.noConfusion he⟩

theorem audio_ok (p1 p2 p3 p4 : RunOut) (h1 : notFnf p1) (h2 : notFnf p2)
    (h3 : notFnf p3) (h4 : notFnf p4) (hs : wfServerLines p1 = true)
    (hv : wfVirtPayload p4 = true) :
    ∃ st, get_audio_status p1 p2 p3 p4 = Except.ok st ∧
      (∀ e, p1 = Except.error e → ∀ e4, p4 = Except.error e4 → st = initAudioFrag) := by
  obtain ⟨st1, hst1, hd1⟩ := audioBlock1_ok p1 p2 p3 h1 h2 h3 hs
  obtain ⟨st2, hst2, hd2⟩ := audioBlock2_ok st1 p4 h4 hv
  refine ⟨st2, ?_, ?_⟩
  · rw [get_audio_status, hst1]
    dsimp only [Bind.bind, Except.bind]
    exact hst2
  · intro e he e4 he4
    rw [hd2 e4 he4, hd1 e he]

/-- The wellformedness envelope under which every bare status adapter is
    total: no probe fails with a missing binary (the adapters' except tuples
    omit FileNotFoundError), every pactl-info Server String line carries a
    colon, and the JSON payloads have the dict shapes the code dereferences
    without a guard. -/
def statusWf (env : StatusEnv) : Prop :=
  notFnf env.ledfxInfo ∧ notFnf env.audioDevices ∧ notFnf env.audioConfig ∧
  notFnf env.virtuals ∧ notFnf env.devices ∧ notFnf env.pactl1 ∧
  notFnf env.pactl2 ∧ notFnf env.pactl3 ∧ notFnf env.audioVirtuals ∧
  wfAudioDevPayloads env.audioDevices env.audioConfig = true ∧
  wfVirtPayload env.virtuals = true ∧ wfDevPayload env.devices = true ∧
  wfServerLines env.pactl1 = true ∧ wfVirtPayload env.audioVirtuals = true

/-- C1 (amended): for the exception kinds the adapters anticipate (timeouts,
    subprocess failures, non-zero exits, undecodable JSON) and payloads of the
    shapes the code dereferences, every source failure is caught inside its
    adapter and degrades to the documented default fragment, and the snapshot
    is still returned; outside this envelope (a missing curl or pactl binary
    raising FileNotFoundError, which the LedFX and audio adapters' except
    tuples omit) the status collection raises, so the unqualified claim is
    refuted by the companion counterexample. -/
theorem c1_adapter_isolation (env : StatusEnv) (hw : statusWf env) :
    ∃ s, statusE env = Except.ok s ∧
      (∀ e, env.ledfxInfo = Except.error e → s.ledfx = defaultInfoFrag) ∧
      (∀ e, env.audioDevices = Except.error e →
        s.ledfx_audio_device = defaultAudioDevFrag) ∧
      (∀ e, env.virtuals = Except.error e → s.virtuals = defaultVirtFrag) ∧
      (∀ e, env.devices = Except.error e → s.devices = defaultDevFrag) ∧
      (∀ e, env.pactl1 = Except.error e → ∀ e4, env.audioVirtuals = Except.error e4 →
        s.audio_status = initAudioFrag) := by
  obtain ⟨h1, h2, h3, h4, h5, h6, h7, h8, h9, hw1, hw2, hw3, hw4, hw5⟩ := hw
  obtain ⟨vi, hvi, hdi⟩ := info_ok env.ledfxInfo h1
  obtain ⟨va, hva, hda⟩ := audioDev_ok env.audioDevices env.audioConfig h2 h3 hw1
  obtain ⟨vv, hvv, hdv⟩ := virt_ok env.virtuals h4 hw2
  obtain ⟨vd, hvd, hdd⟩ := dev_ok env.devices h5 hw3
  obtain ⟨va2, hva2, hda2⟩ :=
    audio_ok env.pactl1 env.pactl2 env.pactl3 env.audioVirtuals h6 h7 h8 h9 hw4 hw5
  refine ⟨{ containers := containerBlock env, ledfx := vi, ledfx_audio_device := va,
            virtuals := vv, devices := vd, audio_status := va2,
            airplay := some (get_airplay_status env.airplay),
            diagnostics :=
              match get_diagnostic_warnings env.diag with
              | Except.ok d => d
              | Except.error _ => zeroDiagFrag }, ?_, ?_, ?_, ?_, ?_, ?_⟩
  · rw [statusE, hvi, hva, hvv, hvd, hva2]
    rfl
  · exact hdi
  · exact hda
  · exact hdv
  · exact hdd
  · exact fun e he e4 he4 => hda2 e he e4 he4

/-- A container probe environment in which every invocation times out. -/
def envTimeoutCE : ContainerEnv :=
  { ps := Except.error ProbeErr.timeoutExpired,
    info := Except.error ProbeErr.timeoutExpired,
    version := Except.error ProbeErr.timeoutExpired }

/-- A status environment in which curl is missing (the LedFX info probe
    raises FileNotFoundError) while every other source merely times out. -/
def envC1bad : StatusEnv :=
  { dockerPs := Except.error ProbeErr.timeoutExpired,
    perContainer := fun _ => envTimeoutCE,
    diag := Except.error ProbeErr.timeoutExpired,
    airplay := { conf := none, shairport := envTimeoutCE,
                 dbus := Except.error ProbeErr.timeoutExpired,
                 browse2 := Except.error ProbeErr.timeoutExpired,
                 browse1 := Except.error ProbeErr.timeoutExpired },
    ledfxInfo := Except.error ProbeErr.fileNotFoundError,
    audioDevices := Except.error ProbeErr.timeoutExpired,
    audioConfig := Except.error ProbeErr.timeoutExpired,
    virtuals := Except.error ProbeErr.timeoutExpired,
    devices := Except.error ProbeErr.timeoutExpired,
    pactl1 := Except.error ProbeErr.timeoutExpired,
    pactl2 := Except.error ProbeErr.timeoutExpired,
    pactl3 := Except.error ProbeErr.timeoutExpired,
    audioVirtuals := Except.error ProbeErr.timeoutExpired }

/-- C1 counterexample: with curl missing, get_ledfx_info's except tuple
    (Timeout, JSONDecodeError, SubprocessError) does not cover the
    FileNotFoundError raised by subprocess.run, so the whole status
    collection raises instead of returning a degraded snapshot. -/
theorem c1_counterexample :
    statusE envC1bad = Except.error PyExc.fileNotFoundError := rfl

/-- A status environment in which every probe runs but exits non-zero. -/
def envC1good : StatusEnv :=
  { dockerPs := Except.ok { rc := 1, out := [] },
    perContainer := fun _ => { ps := Except.ok { rc := 1, out := [] },
                               info := Except.ok { rc := 1, out := [] },
                               version := Except.ok { rc := 1, out := [] } },
    diag := Except.ok { rc := 1, out := [] },
    airplay := { conf := none, shairport := { ps := Except.ok { rc := 1, out := [] },
                                              info := Except.ok { rc := 1, out := [] },
                                              version := Except.ok { rc := 1, out := [] } },
                 dbus := Except.ok { rc := 1, out := [] },
                 browse2 := Except.ok { rc := 1, out := [] },
                 browse1 := Except.ok { rc := 1, out := [] } },
    ledfxInfo := Except.ok { rc := 1, out := [] },
    audioDevices := Except.error ProbeErr.timeoutExpired,
    audioConfig := Except.ok { rc := 1, out := [] },
    virtuals := Except.ok { rc := 1, out := [] },
    devices := Except.ok { rc := 1, out := [] },
    pactl1 := Except.error ProbeErr.timeoutExpired,
    pactl2 := Except.ok { rc := 1, out := [] },
    pactl3 := Except.ok { rc := 1, out := [] },
    audioVirtuals := Except.error ProbeErr.timeoutExpired }

theorem c1_witness :
    statusWf envC1good ∧
    ∃ s, statusE envC1good = Except.ok s ∧
      (∀ e, envC1good.ledfxInfo = Except.error e → s.ledfx = defaultInfoFrag) ∧
      (∀ e, envC1good.audioDevices = Except.error e →
        s.ledfx_audio_device = defaultAudioDevFrag) ∧
      (∀ e, envC1good.virtuals = Except.error e → s.virtuals = defaultVirtFrag) ∧
      (∀ e, envC1good.devices = Except.error e → s.devices = defaultDevFrag) ∧
      (∀ e, envC1good.pactl1 = Except.error e →
        ∀ e4, envC1good.audioVirtuals = Except.error e4 →
          s.audio_status = initAudioFrag) := by
  have hw : statusWf envC1good :=
    ⟨fun h => Except.noConfusion h,
     fun h => Except.noConfusion h fun h2 => ProbeErr.noConfusion h2,
     fun h => Except.noConfusion h, fun h => Except.noConfusion h,
     fun h => Except.noConfusion h,
     fun h => Except.noConfusion h fun h2 => ProbeErr.noConfusion h2,
     fun h => Except.noConfusion h, fun h => Except.noConfusion h,
     fun h => Except.noConfusion h fun h2 => ProbeErr.noConfusion h2,
     rfl, rfl, rfl, rfl, rfl⟩
  exact ⟨hw, c1_adapter_isolation envC1good hw⟩

/-- Worst-case blocking budget, in seconds, of each source consulted by one
    /api/status request, one inner list per adapter in invocation order,
    transliterated from the timeout= argument of every subprocess call on the
    adapter's slowest path: containers (docker ps, app.py line 749, then the
    three known fallback containers, each via the docker ps filter at line 56,
    plus the LedFX version curl at line 102 for ledfx and the docker exec at
    line 77 for shairport-sync), diagnostics (line 701), airplay (container
    check lines 56 and 77, the dbus probe line 480, the two avahi-browse
    calls lines 502 and 508), LedFX info (line 102), the audio device pair
    (lines 203 and 215), virtuals (line 124), devices (line 150) and audio
    status (lines 260, 274, 285 and 314). -/
def statusAdapterBudgets : List (List Nat) :=
  [[5, 5, 5, 5, 5, 5],
   [2],
   [5, 5, 5, 5, 5],
   [5],
   [5, 5],
   [5],
   [5],
   [5, 5, 5, 5]]

/-- Worst-case latency of the sequential collection statusE performs: the
    status() body blocks on each subprocess call in turn, so the budgets
    add up. -/
def statusSequentialWorst : Nat := (statusAdapterBudgets.map List.sum).sum

/-- The bound the spec asserts for a concurrent aggregator: the slowest
    single adapter's budget. -/
def statusMaxAdapterBudget : Nat :=
  (statusAdapterBudgets.map List.sum).foldr max 0

/-- C8: the status aggregator does not run its adapters concurrently — the
    status() body (app.py lines 738-809, embedded as the sequential monadic
    composition statusE) issues every blocking subprocess call one after
    another on one thread, so its worst-case latency is the SUM of the
    adapter budgets (102 s), strictly exceeding the maximum single adapter
    budget (30 s) that the spec requires as the latency bound. -/
theorem c8_sequential_not_concurrent :
    statusSequentialWorst > statusMaxAdapterBudget := by decide
